import Mathlib

/-!
Verification of the BLAKE3 hash core of this repository.

The development shallowly embeds the SIMD back-ends of
`src/hash/blake3_simd.cpp` and `src/hash/blake3_avx512.cpp`.
Machine words are `Nat` values kept below `2^32` (respectively `2^64` for
counters) by explicit reductions `% 2^32` / `% 2^64` exactly where the C
code's fixed-width arithmetic wraps.  A SIMD vector of `n` 32-bit lanes is a
function `Fin n → Nat`; all vector intrinsics are embedded lane-wise.
Byte pointers (`const byte *`) are embedded as functions `Nat → Nat` from a
byte offset to the byte value, mirroring C pointer arithmetic.
-/

namespace CryptoPP

/-- 2^32, the modulus of 32-bit machine words. -/
def W32 : Nat := 4294967296

/-- 2^64, the modulus of 64-bit machine words. -/
def W64 : Nat := 18446744073709551616

/-- 32-bit wrapping addition (`_mm_add_epi32` per lane / C `+` on `word32`). -/
def add32 (a b : Nat) : Nat := (a + b) % W32

/-- Bitwise XOR (`_mm_xor_si128` per lane). -/
def xor32 (a b : Nat) : Nat := a ^^^ b

/-- Rotation right by 16 of a 32-bit lane.
In the SSE4.1 back-end this is the byte shuffle with control
`(13,12,15,14, 9,8,11,10, 5,4,7,6, 1,0,3,2)`, which swaps the two 16-bit
halves of every 32-bit lane; AVX512 uses `_mm512_ror_epi32(x, 16)` and NEON
uses `vrev32q_u16`.  All three realize this function on each lane. -/
def rot16 (x : Nat) : Nat := (x >>> 16) ^^^ ((x <<< 16) % W32)

/-- Rotation right by 12: `xorv(_mm_srli_epi32(x, 12), _mm_slli_epi32(x, 20))`. -/
def rot12 (x : Nat) : Nat := (x >>> 12) ^^^ ((x <<< 20) % W32)

/-- Rotation right by 8 of a 32-bit lane.
In the SSE4.1 back-end this is the byte shuffle with control
`(12,15,14,13, 8,11,10,9, 4,7,6,5, 0,3,2,1)`, which rotates the four bytes
of every 32-bit lane down by one; AVX512 uses `_mm512_ror_epi32(x, 8)` and
NEON a `vqtbl1q_u8` with the same byte rotation. -/
def rot8 (x : Nat) : Nat := (x >>> 8) ^^^ ((x <<< 24) % W32)

/-- Rotation right by 7: `xorv(_mm_srli_epi32(x, 7), _mm_slli_epi32(x, 25))`. -/
def rot7 (x : Nat) : Nat := (x >>> 7) ^^^ ((x <<< 25) % W32)

/-- Modelled from the spec: the constant array `BLAKE3_IV[8]` is declared
`extern` in both SIMD translation units and defined in `blake3.cpp`, which is
not part of the sources at hand.  The spec fixes it as SHA-256's initial hash
value ("IV. Fixed 8-word constant identical to SHA-256's initial hash
value."). -/
def BLAKE3_IV : Nat → Nat
  | 0 => 0x6A09E667
  | 1 => 0xBB67AE85
  | 2 => 0x3C6EF372
  | 3 => 0xA54FF53A
  | 4 => 0x510E527F
  | 5 => 0x9B05688C
  | 6 => 0x1F83D9AB
  | _ => 0x5BE0CD19

/-- Modelled from the spec: the word permutation
`σ = [2,6,3,10,7,0,4,13,1,11,12,5,9,14,15,8]` generating the message
schedule. -/
def sigmaPerm : Nat → Nat
  | 0 => 2
  | 1 => 6
  | 2 => 3
  | 3 => 10
  | 4 => 7
  | 5 => 0
  | 6 => 4
  | 7 => 13
  | 8 => 1
  | 9 => 11
  | 10 => 12
  | 11 => 5
  | 12 => 9
  | 13 => 14
  | 14 => 15
  | 15 => 8
  | n => n

/-- Modelled from the spec: the 7×16 table `BLAKE3_MSG_SCHEDULE` (declared
`extern` in both SIMD translation units, defined in the absent `blake3.cpp`).
The spec states: round 0 is the identity, and each later round applies `σ`
to the previous round's schedule, i.e. `sched (r+1) i = sched r (σ i)`. -/
def BLAKE3_MSG_SCHEDULE : Nat → Nat → Nat
  | 0, i => i
  | r + 1, i => BLAKE3_MSG_SCHEDULE r (sigmaPerm i)

/-- BLAKE3 constants from the sources. -/
def BLAKE3_BLOCK_LEN : Nat := 64

def BLAKE3_CHUNK_LEN : Nat := 1024

def BLAKE3_CHUNK_START : Nat := 1

def BLAKE3_CHUNK_END : Nat := 2

/-- The 16-word compression state of a single BLAKE3 compression, flattened
to sixteen scalar words (the matrix `v[0..16]`). -/
structure VState where
  v0 : Nat
  v1 : Nat
  v2 : Nat
  v3 : Nat
  v4 : Nat
  v5 : Nat
  v6 : Nat
  v7 : Nat
  v8 : Nat
  v9 : Nat
  v10 : Nat
  v11 : Nat
  v12 : Nat
  v13 : Nat
  v14 : Nat
  v15 : Nat
deriving DecidableEq, Repr

/-- One round of the BLAKE3 compression in the statement order of the source
functions `round_fn4` / `round_fn8` / `round_fn16`, at the level of a single
lane.  The argument `mw` gives the message word for schedule slot `j`; the
sources write `m[BLAKE3_MSG_SCHEDULE[r][j]]` where this function reads
`mw j`. -/
def flatRoundW (s : VState) (mw : Nat → Nat) : VState :=
  let v0 := add32 s.v0 (mw 0)
  let v1 := add32 s.v1 (mw 2)
  let v2 := add32 s.v2 (mw 4)
  let v3 := add32 s.v3 (mw 6)
  let v0 := add32 v0 s.v4
  let v1 := add32 v1 s.v5
  let v2 := add32 v2 s.v6
  let v3 := add32 v3 s.v7
  let v12 := xor32 s.v12 v0
  let v13 := xor32 s.v13 v1
  let v14 := xor32 s.v14 v2
  let v15 := xor32 s.v15 v3
  let v12 := rot16 v12
  let v13 := rot16 v13
  let v14 := rot16 v14
  let v15 := rot16 v15
  let v8 := add32 s.v8 v12
  let v9 := add32 s.v9 v13
  let v10 := add32 s.v10 v14
  let v11 := add32 s.v11 v15
  let v4 := xor32 s.v4 v8
  let v5 := xor32 s.v5 v9
  let v6 := xor32 s.v6 v10
  let v7 := xor32 s.v7 v11
  let v4 := rot12 v4
  let v5 := rot12 v5
  let v6 := rot12 v6
  let v7 := rot12 v7
  let v0 := add32 v0 (mw 1)
  let v1 := add32 v1 (mw 3)
  let v2 := add32 v2 (mw 5)
  let v3 := add32 v3 (mw 7)
  let v0 := add32 v0 v4
  let v1 := add32 v1 v5
  let v2 := add32 v2 v6
  let v3 := add32 v3 v7
  let v12 := xor32 v12 v0
  let v13 := xor32 v13 v1
  let v14 := xor32 v14 v2
  let v15 := xor32 v15 v3
  let v12 := rot8 v12
  let v13 := rot8 v13
  let v14 := rot8 v14
  let v15 := rot8 v15
  let v8 := add32 v8 v12
  let v9 := add32 v9 v13
  let v10 := add32 v10 v14
  let v11 := add32 v11 v15
  let v4 := xor32 v4 v8
  let v5 := xor32 v5 v9
  let v6 := xor32 v6 v10
  let v7 := xor32 v7 v11
  let v4 := rot7 v4
  let v5 := rot7 v5
  let v6 := rot7 v6
  let v7 := rot7 v7
  let v0 := add32 v0 (mw 8)
  let v1 := add32 v1 (mw 10)
  let v2 := add32 v2 (mw 12)
  let v3 := add32 v3 (mw 14)
  let v0 := add32 v0 v5
  let v1 := add32 v1 v6
  let v2 := add32 v2 v7
  let v3 := add32 v3 v4
  let v15 := xor32 v15 v0
  let v12 := xor32 v12 v1
  let v13 := xor32 v13 v2
  let v14 := xor32 v14 v3
  let v15 := rot16 v15
  let v12 := rot16 v12
  let v13 := rot16 v13
  let v14 := rot16 v14
  let v10 := add32 v10 v15
  let v11 := add32 v11 v12
  let v8 := add32 v8 v13
  let v9 := add32 v9 v14
  let v5 := xor32 v5 v10
  let v6 := xor32 v6 v11
  let v7 := xor32 v7 v8
  let v4 := xor32 v4 v9
  let v5 := rot12 v5
  let v6 := rot12 v6
  let v7 := rot12 v7
  let v4 := rot12 v4
  let v0 := add32 v0 (mw 9)
  let v1 := add32 v1 (mw 11)
  let v2 := add32 v2 (mw 13)
  let v3 := add32 v3 (mw 15)
  let v0 := add32 v0 v5
  let v1 := add32 v1 v6
  let v2 := add32 v2 v7
  let v3 := add32 v3 v4
  let v15 := xor32 v15 v0
  let v12 := xor32 v12 v1
  let v13 := xor32 v13 v2
  let v14 := xor32 v14 v3
  let v15 := rot8 v15
  let v12 := rot8 v12
  let v13 := rot8 v13
  let v14 := rot8 v14
  let v10 := add32 v10 v15
  let v11 := add32 v11 v12
  let v8 := add32 v8 v13
  let v9 := add32 v9 v14
  let v5 := xor32 v5 v10
  let v6 := xor32 v6 v11
  let v7 := xor32 v7 v8
  let v4 := xor32 v4 v9
  let v5 := rot7 v5
  let v6 := rot7 v6
  let v7 := rot7 v7
  let v4 := rot7 v4
  ⟨v0, v1, v2, v3, v4, v5, v6, v7, v8, v9, v10, v11, v12, v13, v14, v15⟩

/-- Three-operand wrapping 32-bit addition `(a + b + m) mod 2^32`, the shape
in which the spec phrases the first G addition `a += b + m`. -/
def add3 (a b m : Nat) : Nat := (a + b + m) % W32

/-- The G quarter-round exactly as the spec describes it: two additions
`a += b + m` and `c += d`, two XORs `d ^= a` and `b ^= c`, and rotations
right by 16, 12, 8, 7. -/
def specG (a b c d mx my : Nat) : Nat × Nat × Nat × Nat :=
  let a := add3 a b mx
  let d := rot16 (xor32 d a)
  let c := add32 c d
  let b := rot12 (xor32 b c)
  let a := add3 a b my
  let d := rot8 (xor32 d a)
  let c := add32 c d
  let b := rot7 (xor32 b c)
  (a, b, c, d)

/-- One round as the spec describes it: G applied to the four columns of the
4×4 state matrix, then to its four diagonals, with schedule-slot message
words `mw 0 .. mw 15`. -/
def specRoundW (s : VState) (mw : Nat → Nat) : VState :=
  let (a0, b0, c0, d0) := specG s.v0 s.v4 s.v8 s.v12 (mw 0) (mw 1)
  let (a1, b1, c1, d1) := specG s.v1 s.v5 s.v9 s.v13 (mw 2) (mw 3)
  let (a2, b2, c2, d2) := specG s.v2 s.v6 s.v10 s.v14 (mw 4) (mw 5)
  let (a3, b3, c3, d3) := specG s.v3 s.v7 s.v11 s.v15 (mw 6) (mw 7)
  let (e0, f0, g0, h0) := specG a0 b1 c2 d3 (mw 8) (mw 9)
  let (e1, f1, g1, h1) := specG a1 b2 c3 d0 (mw 10) (mw 11)
  let (e2, f2, g2, h2) := specG a2 b3 c0 d1 (mw 12) (mw 13)
  let (e3, f3, g3, h3) := specG a3 b0 c1 d2 (mw 14) (mw 15)
  ⟨e0, e1, e2, e3, f3, f0, f1, f2, g2, g3, g0, g1, h1, h2, h3, h0⟩

/-- A SIMD vector of `n` 32-bit lanes. -/
def Vec (n : Nat) : Type := Fin n → Nat

/-- Build a 4-lane vector from its lanes (lane 0 is the lowest). -/
def v4 (a b c d : Nat) : Vec 4 := fun i =>
  match i with
  | 0 => a
  | 1 => b
  | 2 => c
  | 3 => d

/-- `_mm_add_epi32`. -/
def addv {n : Nat} (a b : Vec n) : Vec n := fun i => add32 (a i) (b i)

/-- `_mm_xor_si128`. -/
def xorv {n : Nat} (a b : Vec n) : Vec n := fun i => xor32 (a i) (b i)

/-- `set1`: broadcast one word to all lanes. -/
def set1 {n : Nat} (x : Nat) : Vec n := fun _ => x

def rot16v {n : Nat} (x : Vec n) : Vec n := fun i => rot16 (x i)

def rot12v {n : Nat} (x : Vec n) : Vec n := fun i => rot12 (x i)

def rot8v {n : Nat} (x : Vec n) : Vec n := fun i => rot8 (x i)

def rot7v {n : Nat} (x : Vec n) : Vec n := fun i => rot7 (x i)

/-- `_mm_shuffle_epi32(x, _MM_SHUFFLE(2,1,0,3))`. -/
def shuffle2103 (x : Vec 4) : Vec 4 := v4 (x 3) (x 0) (x 1) (x 2)

/-- `_mm_shuffle_epi32(x, _MM_SHUFFLE(1,0,3,2))`. -/
def shuffle1032 (x : Vec 4) : Vec 4 := v4 (x 2) (x 3) (x 0) (x 1)

/-- `_mm_shuffle_epi32(x, _MM_SHUFFLE(0,3,2,1))`. -/
def shuffle0321 (x : Vec 4) : Vec 4 := v4 (x 1) (x 2) (x 3) (x 0)

/-- `_mm_shuffle_epi32(x, _MM_SHUFFLE(0,0,3,3))`. -/
def shuffle0033 (x : Vec 4) : Vec 4 := v4 (x 3) (x 3) (x 0) (x 0)

/-- `_mm_shuffle_epi32(x, _MM_SHUFFLE(1,3,2,0))`. -/
def shuffle1320 (x : Vec 4) : Vec 4 := v4 (x 0) (x 2) (x 3) (x 1)

/-- `_mm_shuffle_epi32(x, _MM_SHUFFLE(0,1,3,2))`. -/
def shuffle0132 (x : Vec 4) : Vec 4 := v4 (x 2) (x 3) (x 1) (x 0)

/-- `_mm_shuffle_ps2(a, b, _MM_SHUFFLE(2,0,2,0))`. -/
def sps2020 (a b : Vec 4) : Vec 4 := v4 (a 0) (a 2) (b 0) (b 2)

/-- `_mm_shuffle_ps2(a, b, _MM_SHUFFLE(3,1,3,1))`. -/
def sps3131 (a b : Vec 4) : Vec 4 := v4 (a 1) (a 3) (b 1) (b 3)

/-- `_mm_shuffle_ps2(a, b, _MM_SHUFFLE(3,1,1,2))`. -/
def sps3112 (a b : Vec 4) : Vec 4 := v4 (a 2) (a 1) (b 1) (b 3)

/-- `_mm_shuffle_ps2(a, b, _MM_SHUFFLE(3,3,2,2))`. -/
def sps3322 (a b : Vec 4) : Vec 4 := v4 (a 2) (a 2) (b 3) (b 3)

/-- `_mm_blend_epi16(a, b, 0xCC)`: 16-bit lanes 2,3,6,7 come from `b`,
i.e. 32-bit lanes 1 and 3 come from `b`. -/
def blendCC (a b : Vec 4) : Vec 4 := v4 (a 0) (b 1) (a 2) (b 3)

/-- `_mm_blend_epi16(a, b, 0xC0)`: 16-bit lanes 6,7 come from `b`,
i.e. 32-bit lane 3 comes from `b`. -/
def blendC0 (a b : Vec 4) : Vec 4 := v4 (a 0) (a 1) (a 2) (b 3)

/-- `_mm_unpacklo_epi64`. -/
def unpacklo64 (a b : Vec 4) : Vec 4 := v4 (a 0) (a 1) (b 0) (b 1)

/-- `_mm_unpackhi_epi32`. -/
def unpackhi32 (a b : Vec 4) : Vec 4 := v4 (a 2) (b 2) (a 3) (b 3)

/-- `_mm_unpacklo_epi32`. -/
def unpacklo32 (a b : Vec 4) : Vec 4 := v4 (a 0) (b 0) (a 1) (b 1)

/-- A byte pointer: offset to byte value, like C pointer indexing. -/
def BytePtr : Type := Nat → Nat

/-- Read a little-endian 32-bit word at byte offset `o`. -/
def w32at (p : BytePtr) (o : Nat) : Nat :=
  p o + 256 * p (o + 1) + 65536 * p (o + 2) + 16777216 * p (o + 3)

/-- `LOADU`: load 16 bytes at byte offset `o` as four little-endian words. -/
def loadu128 (p : BytePtr) (o : Nat) : Vec 4 :=
  v4 (w32at p o) (w32at p (o + 4)) (w32at p (o + 8)) (w32at p (o + 12))

/-- The state `rows[4]` of the SSE4.1 single-block compression. -/
structure Rows where
  r0 : Vec 4
  r1 : Vec 4
  r2 : Vec 4
  r3 : Vec 4

/-- First half of the G function: `g1` of the SSE4.1 back-end. -/
def g1 (s : Rows) (m : Vec 4) : Rows :=
  let r0 := addv (addv s.r0 m) s.r1
  let r3 := xorv s.r3 r0
  let r3 := rot16v r3
  let r2 := addv s.r2 r3
  let r1 := xorv s.r1 r2
  let r1 := rot12v r1
  ⟨r0, r1, r2, r3⟩

/-- Second half of the G function: `g2` of the SSE4.1 back-end. -/
def g2 (s : Rows) (m : Vec 4) : Rows :=
  let r0 := addv (addv s.r0 m) s.r1
  let r3 := xorv s.r3 r0
  let r3 := rot8v r3
  let r2 := addv s.r2 r3
  let r1 := xorv s.r1 r2
  let r1 := rot7v r1
  ⟨r0, r1, r2, r3⟩

/-- `diagonalize` of the SSE4.1 back-end. -/
def diagonalize (s : Rows) : Rows :=
  ⟨shuffle2103 s.r0, s.r1, shuffle0321 s.r2, shuffle1032 s.r3⟩

/-- `undiagonalize` of the SSE4.1 back-end. -/
def undiagonalize (s : Rows) : Rows :=
  ⟨shuffle0321 s.r0, s.r1, shuffle2103 s.r2, shuffle1032 s.r3⟩

/-- The rows plus the four message vectors `m0..m3` carried between rounds
of `compress_pre`. -/
structure RM where
  rows : Rows
  m0 : Vec 4
  m1 : Vec 4
  m2 : Vec 4
  m3 : Vec 4

/-- Round 1 of `compress_pre` (the explicit round before the loop). -/
def sseRound1 (rows : Rows) (m0 m1 m2 m3 : Vec 4) : RM :=
  let t0 := sps2020 m0 m1
  let rows := g1 rows t0
  let t1 := sps3131 m0 m1
  let rows := g2 rows t1
  let rows := diagonalize rows
  let t2 := shuffle2103 (sps2020 m2 m3)
  let rows := g1 rows t2
  let t3 := shuffle2103 (sps3131 m2 m3)
  let rows := g2 rows t3
  let rows := undiagonalize rows
  ⟨rows, t0, t1, t2, t3⟩

/-- One iteration of the rounds-2-to-7 loop of `compress_pre`. -/
def sseLoopBody (s : RM) : RM :=
  let t0 := shuffle0321 (sps3112 s.m0 s.m1)
  let rows := g1 s.rows t0
  let t1 := blendCC (shuffle0033 s.m0) (sps3322 s.m2 s.m3)
  let rows := g2 rows t1
  let rows := diagonalize rows
  let t2 := shuffle1320 (blendC0 (unpacklo64 s.m3 s.m1) s.m2)
  let rows := g1 rows t2
  let t3 := shuffle0132 (unpacklo32 s.m2 (unpackhi32 s.m1 s.m3))
  let rows := g2 rows t3
  let rows := undiagonalize rows
  ⟨rows, t0, t1, t2, t3⟩

/-- The `for (round = 0; round < 6; round++)` loop of `compress_pre`. -/
def sseLoop : Nat → RM → RM
  | 0, s => s
  | k + 1, s => sseLoop k (sseLoopBody s)

/-- `compress_pre` of the SSE4.1 back-end: state setup plus seven rounds.
`cv` is the chaining-value pointer (word index to word), `block` the
64-byte block pointer, `ctr` the 64-bit counter. -/
def compress_pre (cv : Nat → Nat) (block : BytePtr) (blen ctr flags : Nat) :
    Rows :=
  let rows : Rows :=
    ⟨v4 (cv 0) (cv 1) (cv 2) (cv 3),
     v4 (cv 4) (cv 5) (cv 6) (cv 7),
     v4 (BLAKE3_IV 0) (BLAKE3_IV 1) (BLAKE3_IV 2) (BLAKE3_IV 3),
     v4 (ctr % W32) ((ctr >>> 32) % W32) blen flags⟩
  let m0 := loadu128 block 0
  let m1 := loadu128 block 16
  let m2 := loadu128 block 32
  let m3 := loadu128 block 48
  (sseLoop 6 (sseRound1 rows m0 m1 m2 m3)).rows

/-- Store a 4-lane vector as four words (`STOREU`). -/
def store128 (x : Vec 4) : List Nat := [x 0, x 1, x 2, x 3]

/-- `BLAKE3_Compress_SSE41`: runs `compress_pre` and stores
`rows[0] XOR rows[2]` and `rows[1] XOR rows[3]` back into the CV. -/
def BLAKE3_Compress_SSE41 (cv : Nat → Nat) (block : BytePtr)
    (blen ctr flags : Nat) : List Nat :=
  let rows := compress_pre cv block blen ctr flags
  store128 (xorv rows.r0 rows.r2) ++ store128 (xorv rows.r1 rows.r3)

/-- `BLAKE3_Compress_XOF_SSE41`: 64 bytes of output; the second half XORs
the upper state half with the input chaining value. -/
def BLAKE3_Compress_XOF_SSE41 (cv : Nat → Nat) (block : BytePtr)
    (blen ctr flags : Nat) : List Nat :=
  let rows := compress_pre cv block blen ctr flags
  store128 (xorv rows.r0 rows.r2) ++ store128 (xorv rows.r1 rows.r3) ++
  store128 (xorv rows.r2 (v4 (cv 0) (cv 1) (cv 2) (cv 3))) ++
  store128 (xorv rows.r3 (v4 (cv 4) (cv 5) (cv 6) (cv 7)))

/-- Flatten the four SSE rows to the 16-word state. -/
def flattenRows (s : Rows) : VState :=
  ⟨s.r0 0, s.r0 1, s.r0 2, s.r0 3,
   s.r1 0, s.r1 1, s.r1 2, s.r1 3,
   s.r2 0, s.r2 1, s.r2 2, s.r2 3,
   s.r3 0, s.r3 1, s.r3 2, s.r3 3⟩

/-- Rebuild the four SSE rows from the 16-word state. -/
def unflatten (s : VState) : Rows :=
  ⟨v4 s.v0 s.v1 s.v2 s.v3, v4 s.v4 s.v5 s.v6 s.v7,
   v4 s.v8 s.v9 s.v10 s.v11, v4 s.v12 s.v13 s.v14 s.v15⟩

/-- Message word `w` of a 64-byte block, little-endian. -/
def blockWords (block : BytePtr) : Nat → Nat := fun w => w32at block (4 * w)

/-- The m-vector arrangement `compress_pre` maintains between rounds:
after the round with slot words `p`, `m0..m3` hold
`[p0,p2,p4,p6]`, `[p1,p3,p5,p7]`, `[p14,p8,p10,p12]`, `[p15,p9,p11,p13]`. -/
def mp0 (p : Nat → Nat) : Vec 4 := v4 (p 0) (p 2) (p 4) (p 6)

def mp1 (p : Nat → Nat) : Vec 4 := v4 (p 1) (p 3) (p 5) (p 7)

def mp2 (p : Nat → Nat) : Vec 4 := v4 (p 14) (p 8) (p 10) (p 12)

def mp3 (p : Nat → Nat) : Vec 4 := v4 (p 15) (p 9) (p 11) (p 13)

/-- The 16-word initial state `h[0..8] || IV[0..4] || t_lo, t_hi, b, d`. -/
def initV (cv : Nat → Nat) (blen ctr flags : Nat) : VState :=
  ⟨cv 0, cv 1, cv 2, cv 3, cv 4, cv 5, cv 6, cv 7,
   BLAKE3_IV 0, BLAKE3_IV 1, BLAKE3_IV 2, BLAKE3_IV 3,
   ctr % W32, (ctr >>> 32) % W32, blen, flags⟩

/-- `k` flat rounds starting from slot words `p`, each next round permuting
the slot words by `σ`. -/
def flatLoop : Nat → VState → (Nat → Nat) → VState
  | 0, s, _ => s
  | k + 1, s, p =>
      flatLoop k (flatRoundW s (fun j => p (sigmaPerm j))) (fun i => p (sigmaPerm i))

/-- The seven rounds of the compression in flat form, round `r` using the
message schedule row `r`. -/
def flat7 (s : VState) (w : Nat → Nat) : VState :=
  let s := flatRoundW s (fun j => w (BLAKE3_MSG_SCHEDULE 0 j))
  let s := flatRoundW s (fun j => w (BLAKE3_MSG_SCHEDULE 1 j))
  let s := flatRoundW s (fun j => w (BLAKE3_MSG_SCHEDULE 2 j))
  let s := flatRoundW s (fun j => w (BLAKE3_MSG_SCHEDULE 3 j))
  let s := flatRoundW s (fun j => w (BLAKE3_MSG_SCHEDULE 4 j))
  let s := flatRoundW s (fun j => w (BLAKE3_MSG_SCHEDULE 5 j))
  flatRoundW s (fun j => w (BLAKE3_MSG_SCHEDULE 6 j))

/-- The sixteen lane-wide state vectors `v[16]` of the N-way chunk engines. -/
structure WState (n : Nat) where
  v0 : Vec n
  v1 : Vec n
  v2 : Vec n
  v3 : Vec n
  v4 : Vec n
  v5 : Vec n
  v6 : Vec n
  v7 : Vec n
  v8 : Vec n
  v9 : Vec n
  v10 : Vec n
  v11 : Vec n
  v12 : Vec n
  v13 : Vec n
  v14 : Vec n
  v15 : Vec n

/-- One round of the N-way engines: `round_fn4` (SSE4.1), `round_fn8` (AVX2)
and `round_fn16` (AVX512) are this function at `n = 4, 8, 16`; their bodies
are identical up to the vector width. -/
def roundFnN {n : Nat} (s : WState n) (m : Nat → Vec n) (r : Nat) : WState n :=
  let v0 := addv s.v0 (m (BLAKE3_MSG_SCHEDULE r 0))
  let v1 := addv s.v1 (m (BLAKE3_MSG_SCHEDULE r 2))
  let v2 := addv s.v2 (m (BLAKE3_MSG_SCHEDULE r 4))
  let v3 := addv s.v3 (m (BLAKE3_MSG_SCHEDULE r 6))
  let v0 := addv v0 s.v4
  let v1 := addv v1 s.v5
  let v2 := addv v2 s.v6
  let v3 := addv v3 s.v7
  let v12 := xorv s.v12 v0
  let v13 := xorv s.v13 v1
  let v14 := xorv s.v14 v2
  let v15 := xorv s.v15 v3
  let v12 := rot16v v12
  let v13 := rot16v v13
  let v14 := rot16v v14
  let v15 := rot16v v15
  let v8 := addv s.v8 v12
  let v9 := addv s.v9 v13
  let v10 := addv s.v10 v14
  let v11 := addv s.v11 v15
  let v4 := xorv s.v4 v8
  let v5 := xorv s.v5 v9
  let v6 := xorv s.v6 v10
  let v7 := xorv s.v7 v11
  let v4 := rot12v v4
  let v5 := rot12v v5
  let v6 := rot12v v6
  let v7 := rot12v v7
  let v0 := addv v0 (m (BLAKE3_MSG_SCHEDULE r 1))
  let v1 := addv v1 (m (BLAKE3_MSG_SCHEDULE r 3))
  let v2 := addv v2 (m (BLAKE3_MSG_SCHEDULE r 5))
  let v3 := addv v3 (m (BLAKE3_MSG_SCHEDULE r 7))
  let v0 := addv v0 v4
  let v1 := addv v1 v5
  let v2 := addv v2 v6
  let v3 := addv v3 v7
  let v12 := xorv v12 v0
  let v13 := xorv v13 v1
  let v14 := xorv v14 v2
  let v15 := xorv v15 v3
  let v12 := rot8v v12
  let v13 := rot8v v13
  let v14 := rot8v v14
  let v15 := rot8v v15
  let v8 := addv v8 v12
  let v9 := addv v9 v13
  let v10 := addv v10 v14
  let v11 := addv v11 v15
  let v4 := xorv v4 v8
  let v5 := xorv v5 v9
  let v6 := xorv v6 v10
  let v7 := xorv v7 v11
  let v4 := rot7v v4
  let v5 := rot7v v5
  let v6 := rot7v v6
  let v7 := rot7v v7
  let v0 := addv v0 (m (BLAKE3_MSG_SCHEDULE r 8))
  let v1 := addv v1 (m (BLAKE3_MSG_SCHEDULE r 10))
  let v2 := addv v2 (m (BLAKE3_MSG_SCHEDULE r 12))
  let v3 := addv v3 (m (BLAKE3_MSG_SCHEDULE r 14))
  let v0 := addv v0 v5
  let v1 := addv v1 v6
  let v2 := addv v2 v7
  let v3 := addv v3 v4
  let v15 := xorv v15 v0
  let v12 := xorv v12 v1
  let v13 := xorv v13 v2
  let v14 := xorv v14 v3
  let v15 := rot16v v15
  let v12 := rot16v v12
  let v13 := rot16v v13
  let v14 := rot16v v14
  let v10 := addv v10 v15
  let v11 := addv v11 v12
  let v8 := addv v8 v13
  let v9 := addv v9 v14
  let v5 := xorv v5 v10
  let v6 := xorv v6 v11
  let v7 := xorv v7 v8
  let v4 := xorv v4 v9
  let v5 := rot12v v5
  let v6 := rot12v v6
  let v7 := rot12v v7
  let v4 := rot12v v4
  let v0 := addv v0 (m (BLAKE3_MSG_SCHEDULE r 9))
  let v1 := addv v1 (m (BLAKE3_MSG_SCHEDULE r 11))
  let v2 := addv v2 (m (BLAKE3_MSG_SCHEDULE r 13))
  let v3 := addv v3 (m (BLAKE3_MSG_SCHEDULE r 15))
  let v0 := addv v0 v5
  let v1 := addv v1 v6
  let v2 := addv v2 v7
  let v3 := addv v3 v4
  let v15 := xorv v15 v0
  let v12 := xorv v12 v1
  let v13 := xorv v13 v2
  let v14 := xorv v14 v3
  let v15 := rot8v v15
  let v12 := rot8v v12
  let v13 := rot8v v13
  let v14 := rot8v v14
  let v10 := addv v10 v15
  let v11 := addv v11 v12
  let v8 := addv v8 v13
  let v9 := addv v9 v14
  let v5 := xorv v5 v10
  let v6 := xorv v6 v11
  let v7 := xorv v7 v8
  let v4 := xorv v4 v9
  let v5 := rot7v v5
  let v6 := rot7v v6
  let v7 := rot7v v7
  let v4 := rot7v v4
  ⟨v0, v1, v2, v3, v4, v5, v6, v7, v8, v9, v10, v11, v12, v13, v14, v15⟩

/-- The lane-wide chaining-value vectors `h_vecs[8]` of the chunk engines. -/
structure HV (n : Nat) where
  h0 : Vec n
  h1 : Vec n
  h2 : Vec n
  h3 : Vec n
  h4 : Vec n
  h5 : Vec n
  h6 : Vec n
  h7 : Vec n

/-- Extract lane `c` of the 16 state vectors. -/
def laneW {n : Nat} (s : WState n) (c : Fin n) : VState :=
  ⟨s.v0 c, s.v1 c, s.v2 c, s.v3 c, s.v4 c, s.v5 c, s.v6 c, s.v7 c,
   s.v8 c, s.v9 c, s.v10 c, s.v11 c, s.v12 c, s.v13 c, s.v14 c, s.v15 c⟩

/-- Extract lane `c` of the 8 chaining-value vectors as a word list. -/
def laneHV {n : Nat} (h : HV n) (c : Fin n) : List Nat :=
  [h.h0 c, h.h1 c, h.h2 c, h.h3 c, h.h4 c, h.h5 c, h.h6 c, h.h7 c]

/-- The per-block flag computation shared by all chunk engines and the scalar
fallback: `CHUNK_START` on block 0, `CHUNK_END` on block 15. -/
def chunkBlockFlags (flags b : Nat) : Nat :=
  let f := flags
  let f := if b = 0 then f ||| BLAKE3_CHUNK_START else f
  if b = 15 then f ||| BLAKE3_CHUNK_END else f

/-- The body of the per-block loop of the chunk engines: set up `v[16]` from
the chaining values, IV, counter vectors, block length 64 and block flags,
run seven rounds, and XOR the halves into the new chaining values.  This is
the loop body of `BLAKE3_Hash4_SSE41`, `BLAKE3_Hash8_AVX2` and
`BLAKE3_Hash16_AVX512`, which are identical up to vector width. -/
def blockCompressN {n : Nat} (h : HV n) (m : Nat → Vec n) (clo chi : Vec n)
    (bflags : Nat) : HV n :=
  let v : WState n :=
    ⟨h.h0, h.h1, h.h2, h.h3, h.h4, h.h5, h.h6, h.h7,
     set1 (BLAKE3_IV 0), set1 (BLAKE3_IV 1), set1 (BLAKE3_IV 2),
     set1 (BLAKE3_IV 3), clo, chi, set1 BLAKE3_BLOCK_LEN, set1 bflags⟩
  let v := roundFnN v m 0
  let v := roundFnN v m 1
  let v := roundFnN v m 2
  let v := roundFnN v m 3
  let v := roundFnN v m 4
  let v := roundFnN v m 5
  let v := roundFnN v m 6
  ⟨xorv v.v0 v.v8, xorv v.v1 v.v9, xorv v.v2 v.v10, xorv v.v3 v.v11,
   xorv v.v4 v.v12, xorv v.v5 v.v13, xorv v.v6 v.v14, xorv v.v7 v.v15⟩

/-- CV-mode finalization of the 16-word state: `v[0..8] XOR v[8..16]`. -/
def flatFinalize (s : VState) : List Nat :=
  [xor32 s.v0 s.v8, xor32 s.v1 s.v9, xor32 s.v2 s.v10, xor32 s.v3 s.v11,
   xor32 s.v4 s.v12, xor32 s.v5 s.v13, xor32 s.v6 s.v14, xor32 s.v7 s.v15]

/-- One whole single-block compression in flat form, with the counter given
as its two pre-split 32-bit halves. -/
def flatBlockStep (cv : List Nat) (mw : Nat → Nat) (tlo thi bf : Nat) :
    List Nat :=
  flatFinalize (flat7
    ⟨cv.getD 0 0, cv.getD 1 0, cv.getD 2 0, cv.getD 3 0,
     cv.getD 4 0, cv.getD 5 0, cv.getD 6 0, cv.getD 7 0,
     BLAKE3_IV 0, BLAKE3_IV 1, BLAKE3_IV 2, BLAKE3_IV 3,
     tlo, thi, BLAKE3_BLOCK_LEN, bf⟩ mw)

/-- View a word list as a word pointer (`word32 cv[8]` array decay). -/
def listToPtr (l : List Nat) : Nat → Nat := fun i => l.getD i 0

/-- The one-chunk-at-a-time scalar fallback loop body shared by
`BLAKE3_HashMany_SSE41` / `_AVX2` / `_AVX512`: apply
`BLAKE3_Compress_SSE41` to the first `b` 64-byte blocks of `chunk` with
block length 64, counter `t` and the per-block chunk flags. -/
def scalarChunkBlocks (chunk : BytePtr) (t flags : Nat) :
    Nat → List Nat → List Nat
  | 0, cv => cv
  | b + 1, cv =>
      BLAKE3_Compress_SSE41 (listToPtr (scalarChunkBlocks chunk t flags b cv))
        (fun o => chunk (b * BLAKE3_BLOCK_LEN + o)) BLAKE3_BLOCK_LEN t
        (chunkBlockFlags flags b)

/-- The scalar path for one whole 1024-byte chunk: `cv` starts as the key
and all 16 blocks are compressed in sequence. -/
def scalarChunkCV (chunk : BytePtr) (key : Nat → Nat) (t flags : Nat) :
    List Nat :=
  scalarChunkBlocks chunk t flags 16
    [key 0, key 1, key 2, key 3, key 4, key 5, key 6, key 7]

/-- `b` single-block compressions of a chunk in flat form, with the counter
halves held fixed. -/
def flatChunkBlocks (chunk : BytePtr) (tlo thi flags : Nat) :
    Nat → List Nat → List Nat
  | 0, cv => cv
  | b + 1, cv =>
      flatBlockStep (flatChunkBlocks chunk tlo thi flags b cv)
        (blockWords (fun o => chunk (b * BLAKE3_BLOCK_LEN + o))) tlo thi
        (chunkBlockFlags flags b)

/-- `_mm_unpackhi_epi64`. -/
def unpackhi64 (a b : Vec 4) : Vec 4 := v4 (a 2) (a 3) (b 2) (b 3)

/-- `transpose_vecs` of the SSE4.1 back-end: transpose a 4×4 word matrix. -/
def transpose_vecs (a b c d : Vec 4) : Vec 4 × Vec 4 × Vec 4 × Vec 4 :=
  let t0 := unpacklo32 a b
  let t1 := unpackhi32 a b
  let t2 := unpacklo32 c d
  let t3 := unpackhi32 c d
  (unpacklo64 t0 t2, unpackhi64 t0 t2, unpacklo64 t1 t3, unpackhi64 t1 t3)

/-- `transpose_msg_vecs4`: load the block at `off` of all four chunks and
transpose, so vector `w` holds message word `w` of each chunk. -/
def transpose_msg_vecs4 (inputs : Fin 4 → BytePtr) (off : Nat) :
    Nat → Vec 4 :=
  let q0 := transpose_vecs (loadu128 (inputs 0) (off + 0))
    (loadu128 (inputs 1) (off + 0)) (loadu128 (inputs 2) (off + 0))
    (loadu128 (inputs 3) (off + 0))
  let q1 := transpose_vecs (loadu128 (inputs 0) (off + 16))
    (loadu128 (inputs 1) (off + 16)) (loadu128 (inputs 2) (off + 16))
    (loadu128 (inputs 3) (off + 16))
  let q2 := transpose_vecs (loadu128 (inputs 0) (off + 32))
    (loadu128 (inputs 1) (off + 32)) (loadu128 (inputs 2) (off + 32))
    (loadu128 (inputs 3) (off + 32))
  let q3 := transpose_vecs (loadu128 (inputs 0) (off + 48))
    (loadu128 (inputs 1) (off + 48)) (loadu128 (inputs 2) (off + 48))
    (loadu128 (inputs 3) (off + 48))
  fun w =>
    match w with
    | 0 => q0.1
    | 1 => q0.2.1
    | 2 => q0.2.2.1
    | 3 => q0.2.2.2
    | 4 => q1.1
    | 5 => q1.2.1
    | 6 => q1.2.2.1
    | 7 => q1.2.2.2
    | 8 => q2.1
    | 9 => q2.2.1
    | 10 => q2.2.2.1
    | 11 => q2.2.2.2
    | 12 => q3.1
    | 13 => q3.2.1
    | 14 => q3.2.2.1
    | 15 => q3.2.2.2
    | _ => set1 0

/-- The counter-low vector of `BLAKE3_Hash4_SSE41`:
`set4((word32)counter, (word32)(counter+1), ...)` with 64-bit wrapping
addition. -/
def counterLowVec4 (ctr : Nat) : Vec 4 :=
  v4 (ctr % W32) (((ctr + 1) % W64) % W32) (((ctr + 2) % W64) % W32)
    (((ctr + 3) % W64) % W32)

/-- The counter-high vector of `BLAKE3_Hash4_SSE41`. -/
def counterHighVec4 (ctr : Nat) : Vec 4 :=
  v4 ((ctr >>> 32) % W32) ((((ctr + 1) % W64) >>> 32) % W32)
    ((((ctr + 2) % W64) >>> 32) % W32) ((((ctr + 3) % W64) >>> 32) % W32)

/-- The per-block loop of `BLAKE3_Hash4_SSE41`: process the first `b`
blocks of the four chunks. -/
def chunkBlocks4 (inputs : Fin 4 → BytePtr) (clo chi : Vec 4) (flags : Nat) :
    Nat → HV 4 → HV 4
  | 0, h => h
  | b + 1, h =>
      blockCompressN (chunkBlocks4 inputs clo chi flags b h)
        (transpose_msg_vecs4 inputs (b * BLAKE3_BLOCK_LEN)) clo chi
        (chunkBlockFlags flags b)

/-- `BLAKE3_Hash4_SSE41`: hash 4 complete 1024-byte chunks in parallel.
The output is the word list of the 4 chaining values in chunk order
(the source's interleaved stores `out[0], out[16], out[32], ...` of the
re-transposed vectors). -/
def BLAKE3_Hash4_SSE41 (inputs : Fin 4 → BytePtr) (key : Nat → Nat)
    (ctr flags : Nat) : List Nat :=
  let h : HV 4 :=
    ⟨set1 (key 0), set1 (key 1), set1 (key 2), set1 (key 3),
     set1 (key 4), set1 (key 5), set1 (key 6), set1 (key 7)⟩
  let clo := counterLowVec4 ctr
  let chi := counterHighVec4 ctr
  let h := chunkBlocks4 inputs clo chi flags 16 h
  let q0 := transpose_vecs h.h0 h.h1 h.h2 h.h3
  let q1 := transpose_vecs h.h4 h.h5 h.h6 h.h7
  store128 q0.1 ++ store128 q1.1 ++ store128 q0.2.1 ++ store128 q1.2.1 ++
    store128 q0.2.2.1 ++ store128 q1.2.2.1 ++ store128 q0.2.2.2 ++
    store128 q1.2.2.2

/-- Build an 8-lane vector from its lanes (`_mm256_setr_epi32`). -/
def v8 (a b c d e f g h : Nat) : Vec 8 := fun i =>
  match i with
  | 0 => a
  | 1 => b
  | 2 => c
  | 3 => d
  | 4 => e
  | 5 => f
  | 6 => g
  | 7 => h

/-- Build a 16-lane vector from its lanes (`_mm512_setr_epi32`). -/
def v16 (a b c d e f g h i j k l m n o p : Nat) : Vec 16 := fun idx =>
  match idx with
  | 0 => a
  | 1 => b
  | 2 => c
  | 3 => d
  | 4 => e
  | 5 => f
  | 6 => g
  | 7 => h
  | 8 => i
  | 9 => j
  | 10 => k
  | 11 => l
  | 12 => m
  | 13 => n
  | 14 => o
  | _ => p

/-- `_mm256_unpacklo_epi32`: interleaves within each 128-bit half. -/
def unpacklo32x8 (a b : Vec 8) : Vec 8 :=
  v8 (a 0) (b 0) (a 1) (b 1) (a 4) (b 4) (a 5) (b 5)

/-- `_mm256_unpackhi_epi32`. -/
def unpackhi32x8 (a b : Vec 8) : Vec 8 :=
  v8 (a 2) (b 2) (a 3) (b 3) (a 6) (b 6) (a 7) (b 7)

/-- `_mm256_unpacklo_epi64`. -/
def unpacklo64x8 (a b : Vec 8) : Vec 8 :=
  v8 (a 0) (a 1) (b 0) (b 1) (a 4) (a 5) (b 4) (b 5)

/-- `_mm256_unpackhi_epi64`. -/
def unpackhi64x8 (a b : Vec 8) : Vec 8 :=
  v8 (a 2) (a 3) (b 2) (b 3) (a 6) (a 7) (b 6) (b 7)

/-- `_mm256_permute2x128_si256(a, b, 0x20)`: low halves of `a` and `b`. -/
def permute2x128lo (a b : Vec 8) : Vec 8 :=
  v8 (a 0) (a 1) (a 2) (a 3) (b 0) (b 1) (b 2) (b 3)

/-- `_mm256_permute2x128_si256(a, b, 0x31)`: high halves of `a` and `b`. -/
def permute2x128hi (a b : Vec 8) : Vec 8 :=
  v8 (a 4) (a 5) (a 6) (a 7) (b 4) (b 5) (b 6) (b 7)

/-- `transpose_vecs256` of the AVX2 back-end: transpose an 8×8 word
matrix. -/
def transpose_vecs256 (a b c d e f g h : Vec 8) :
    Vec 8 × Vec 8 × Vec 8 × Vec 8 × Vec 8 × Vec 8 × Vec 8 × Vec 8 :=
  let t0 := unpacklo32x8 a b
  let t1 := unpackhi32x8 a b
  let t2 := unpacklo32x8 c d
  let t3 := unpackhi32x8 c d
  let t4 := unpacklo32x8 e f
  let t5 := unpackhi32x8 e f
  let t6 := unpacklo32x8 g h
  let t7 := unpackhi32x8 g h
  let s0 := unpacklo64x8 t0 t2
  let s1 := unpackhi64x8 t0 t2
  let s2 := unpacklo64x8 t1 t3
  let s3 := unpackhi64x8 t1 t3
  let s4 := unpacklo64x8 t4 t6
  let s5 := unpackhi64x8 t4 t6
  let s6 := unpacklo64x8 t5 t7
  let s7 := unpackhi64x8 t5 t7
  (permute2x128lo s0 s4, permute2x128lo s1 s5, permute2x128lo s2 s6,
   permute2x128lo s3 s7, permute2x128hi s0 s4, permute2x128hi s1 s5,
   permute2x128hi s2 s6, permute2x128hi s3 s7)

/-- `transpose_msg_vecs8` of the AVX2 back-end: sixteen direct word gathers
`_mm256_setr_epi32` at byte offsets `block_offset + 0, 4, ..., 60`. -/
def transpose_msg_vecs8 (inputs : Fin 8 → BytePtr) (off : Nat) :
    Nat → Vec 8 :=
  fun w =>
    match w with
    | 0 => v8 (w32at (inputs 0) (off + 0)) (w32at (inputs 1) (off + 0))
        (w32at (inputs 2) (off + 0)) (w32at (inputs 3) (off + 0))
        (w32at (inputs 4) (off + 0)) (w32at (inputs 5) (off + 0))
        (w32at (inputs 6) (off + 0)) (w32at (inputs 7) (off + 0))
    | 1 => v8 (w32at (inputs 0) (off + 4)) (w32at (inputs 1) (off + 4))
        (w32at (inputs 2) (off + 4)) (w32at (inputs 3) (off + 4))
        (w32at (inputs 4) (off + 4)) (w32at (inputs 5) (off + 4))
        (w32at (inputs 6) (off + 4)) (w32at (inputs 7) (off + 4))
    | 2 => v8 (w32at (inputs 0) (off + 8)) (w32at (inputs 1) (off + 8))
        (w32at (inputs 2) (off + 8)) (w32at (inputs 3) (off + 8))
        (w32at (inputs 4) (off + 8)) (w32at (inputs 5) (off + 8))
        (w32at (inputs 6) (off + 8)) (w32at (inputs 7) (off + 8))
    | 3 => v8 (w32at (inputs 0) (off + 12)) (w32at (inputs 1) (off + 12))
        (w32at (inputs 2) (off + 12)) (w32at (inputs 3) (off + 12))
        (w32at (inputs 4) (off + 12)) (w32at (inputs 5) (off + 12))
        (w32at (inputs 6) (off + 12)) (w32at (inputs 7) (off + 12))
    | 4 => v8 (w32at (inputs 0) (off + 16)) (w32at (inputs 1) (off + 16))
        (w32at (inputs 2) (off + 16)) (w32at (inputs 3) (off + 16))
        (w32at (inputs 4) (off + 16)) (w32at (inputs 5) (off + 16))
        (w32at (inputs 6) (off + 16)) (w32at (inputs 7) (off + 16))
    | 5 => v8 (w32at (inputs 0) (off + 20)) (w32at (inputs 1) (off + 20))
        (w32at (inputs 2) (off + 20)) (w32at (inputs 3) (off + 20))
        (w32at (inputs 4) (off + 20)) (w32at (inputs 5) (off + 20))
        (w32at (inputs 6) (off + 20)) (w32at (inputs 7) (off + 20))
    | 6 => v8 (w32at (inputs 0) (off + 24)) (w32at (inputs 1) (off + 24))
        (w32at (inputs 2) (off + 24)) (w32at (inputs 3) (off + 24))
        (w32at (inputs 4) (off + 24)) (w32at (inputs 5) (off + 24))
        (w32at (inputs 6) (off + 24)) (w32at (inputs 7) (off + 24))
    | 7 => v8 (w32at (inputs 0) (off + 28)) (w32at (inputs 1) (off + 28))
        (w32at (inputs 2) (off + 28)) (w32at (inputs 3) (off + 28))
        (w32at (inputs 4) (off + 28)) (w32at (inputs 5) (off + 28))
        (w32at (inputs 6) (off + 28)) (w32at (inputs 7) (off + 28))
    | 8 => v8 (w32at (inputs 0) (off + 32)) (w32at (inputs 1) (off + 32))
        (w32at (inputs 2) (off + 32)) (w32at (inputs 3) (off + 32))
        (w32at (inputs 4) (off + 32)) (w32at (inputs 5) (off + 32))
        (w32at (inputs 6) (off + 32)) (w32at (inputs 7) (off + 32))
    | 9 => v8 (w32at (inputs 0) (off + 36)) (w32at (inputs 1) (off + 36))
        (w32at (inputs 2) (off + 36)) (w32at (inputs 3) (off + 36))
        (w32at (inputs 4) (off + 36)) (w32at (inputs 5) (off + 36))
        (w32at (inputs 6) (off + 36)) (w32at (inputs 7) (off + 36))
    | 10 => v8 (w32at (inputs 0) (off + 40)) (w32at (inputs 1) (off + 40))
        (w32at (inputs 2) (off + 40)) (w32at (inputs 3) (off + 40))
        (w32at (inputs 4) (off + 40)) (w32at (inputs 5) (off + 40))
        (w32at (inputs 6) (off + 40)) (w32at (inputs 7) (off + 40))
    | 11 => v8 (w32at (inputs 0) (off + 44)) (w32at (inputs 1) (off + 44))
        (w32at (inputs 2) (off + 44)) (w32at (inputs 3) (off + 44))
        (w32at (inputs 4) (off + 44)) (w32at (inputs 5) (off + 44))
        (w32at (inputs 6) (off + 44)) (w32at (inputs 7) (off + 44))
    | 12 => v8 (w32at (inputs 0) (off + 48)) (w32at (inputs 1) (off + 48))
        (w32at (inputs 2) (off + 48)) (w32at (inputs 3) (off + 48))
        (w32at (inputs 4) (off + 48)) (w32at (inputs 5) (off + 48))
        (w32at (inputs 6) (off + 48)) (w32at (inputs 7) (off + 48))
    | 13 => v8 (w32at (inputs 0) (off + 52)) (w32at (inputs 1) (off + 52))
        (w32at (inputs 2) (off + 52)) (w32at (inputs 3) (off + 52))
        (w32at (inputs 4) (off + 52)) (w32at (inputs 5) (off + 52))
        (w32at (inputs 6) (off + 52)) (w32at (inputs 7) (off + 52))
    | 14 => v8 (w32at (inputs 0) (off + 56)) (w32at (inputs 1) (off + 56))
        (w32at (inputs 2) (off + 56)) (w32at (inputs 3) (off + 56))
        (w32at (inputs 4) (off + 56)) (w32at (inputs 5) (off + 56))
        (w32at (inputs 6) (off + 56)) (w32at (inputs 7) (off + 56))
    | 15 => v8 (w32at (inputs 0) (off + 60)) (w32at (inputs 1) (off + 60))
        (w32at (inputs 2) (off + 60)) (w32at (inputs 3) (off + 60))
        (w32at (inputs 4) (off + 60)) (w32at (inputs 5) (off + 60))
        (w32at (inputs 6) (off + 60)) (w32at (inputs 7) (off + 60))
    | _ => set1 0

/-- The counter-low vector of `BLAKE3_Hash8_AVX2`. -/
def counterLowVec8 (ctr : Nat) : Vec 8 :=
  v8 (ctr % W32) (((ctr + 1) % W64) % W32) (((ctr + 2) % W64) % W32)
    (((ctr + 3) % W64) % W32) (((ctr + 4) % W64) % W32)
    (((ctr + 5) % W64) % W32) (((ctr + 6) % W64) % W32)
    (((ctr + 7) % W64) % W32)

/-- The counter-high vector of `BLAKE3_Hash8_AVX2`. -/
def counterHighVec8 (ctr : Nat) : Vec 8 :=
  v8 ((ctr >>> 32) % W32) ((((ctr + 1) % W64) >>> 32) % W32)
    ((((ctr + 2) % W64) >>> 32) % W32) ((((ctr + 3) % W64) >>> 32) % W32)
    ((((ctr + 4) % W64) >>> 32) % W32) ((((ctr + 5) % W64) >>> 32) % W32)
    ((((ctr + 6) % W64) >>> 32) % W32) ((((ctr + 7) % W64) >>> 32) % W32)

/-- The per-block loop of `BLAKE3_Hash8_AVX2`. -/
def chunkBlocks8 (inputs : Fin 8 → BytePtr) (clo chi : Vec 8) (flags : Nat) :
    Nat → HV 8 → HV 8
  | 0, h => h
  | b + 1, h =>
      blockCompressN (chunkBlocks8 inputs clo chi flags b h)
        (transpose_msg_vecs8 inputs (b * BLAKE3_BLOCK_LEN)) clo chi
        (chunkBlockFlags flags b)

/-- Store an 8-lane vector as eight words (`STOREU256`). -/
def store256 (x : Vec 8) : List Nat :=
  [x 0, x 1, x 2, x 3, x 4, x 5, x 6, x 7]

/-- `BLAKE3_Hash8_AVX2`: hash 8 complete 1024-byte chunks in parallel. -/
def BLAKE3_Hash8_AVX2 (inputs : Fin 8 → BytePtr) (key : Nat → Nat)
    (ctr flags : Nat) : List Nat :=
  let h : HV 8 :=
    ⟨set1 (key 0), set1 (key 1), set1 (key 2), set1 (key 3),
     set1 (key 4), set1 (key 5), set1 (key 6), set1 (key 7)⟩
  let clo := counterLowVec8 ctr
  let chi := counterHighVec8 ctr
  let h := chunkBlocks8 inputs clo chi flags 16 h
  let q := transpose_vecs256 h.h0 h.h1 h.h2 h.h3 h.h4 h.h5 h.h6 h.h7
  store256 q.1 ++ store256 q.2.1 ++ store256 q.2.2.1 ++ store256 q.2.2.2.1 ++
    store256 q.2.2.2.2.1 ++ store256 q.2.2.2.2.2.1 ++
    store256 q.2.2.2.2.2.2.1 ++ store256 q.2.2.2.2.2.2.2

/-- `transpose_msg_vecs16` of the AVX512 back-end: for each word index,
gather that word from all 16 chunks (`byte_offset = block_offset +
word * sizeof(word32)`). -/
def transpose_msg_vecs16 (inputs : Fin 16 → BytePtr) (off : Nat) :
    Nat → Vec 16 :=
  fun w =>
    v16 (w32at (inputs 0) (off + w * 4)) (w32at (inputs 1) (off + w * 4))
      (w32at (inputs 2) (off + w * 4)) (w32at (inputs 3) (off + w * 4))
      (w32at (inputs 4) (off + w * 4)) (w32at (inputs 5) (off + w * 4))
      (w32at (inputs 6) (off + w * 4)) (w32at (inputs 7) (off + w * 4))
      (w32at (inputs 8) (off + w * 4)) (w32at (inputs 9) (off + w * 4))
      (w32at (inputs 10) (off + w * 4)) (w32at (inputs 11) (off + w * 4))
      (w32at (inputs 12) (off + w * 4)) (w32at (inputs 13) (off + w * 4))
      (w32at (inputs 14) (off + w * 4)) (w32at (inputs 15) (off + w * 4))

/-- The counter-low vector of `BLAKE3_Hash16_AVX512`. -/
def counterLowVec16 (ctr : Nat) : Vec 16 :=
  v16 (ctr % W32) (((ctr + 1) % W64) % W32) (((ctr + 2) % W64) % W32)
    (((ctr + 3) % W64) % W32) (((ctr + 4) % W64) % W32)
    (((ctr + 5) % W64) % W32) (((ctr + 6) % W64) % W32)
    (((ctr + 7) % W64) % W32) (((ctr + 8) % W64) % W32)
    (((ctr + 9) % W64) % W32) (((ctr + 10) % W64) % W32)
    (((ctr + 11) % W64) % W32) (((ctr + 12) % W64) % W32)
    (((ctr + 13) % W64) % W32) (((ctr + 14) % W64) % W32)
    (((ctr + 15) % W64) % W32)

/-- The counter-high vector of `BLAKE3_Hash16_AVX512`. -/
def counterHighVec16 (ctr : Nat) : Vec 16 :=
  v16 ((ctr >>> 32) % W32) ((((ctr + 1) % W64) >>> 32) % W32)
    ((((ctr + 2) % W64) >>> 32) % W32) ((((ctr + 3) % W64) >>> 32) % W32)
    ((((ctr + 4) % W64) >>> 32) % W32) ((((ctr + 5) % W64) >>> 32) % W32)
    ((((ctr + 6) % W64) >>> 32) % W32) ((((ctr + 7) % W64) >>> 32) % W32)
    ((((ctr + 8) % W64) >>> 32) % W32) ((((ctr + 9) % W64) >>> 32) % W32)
    ((((ctr + 10) % W64) >>> 32) % W32) ((((ctr + 11) % W64) >>> 32) % W32)
    ((((ctr + 12) % W64) >>> 32) % W32) ((((ctr + 13) % W64) >>> 32) % W32)
    ((((ctr + 14) % W64) >>> 32) % W32) ((((ctr + 15) % W64) >>> 32) % W32)

/-- The per-block loop of `BLAKE3_Hash16_AVX512`. -/
def chunkBlocks16 (inputs : Fin 16 → BytePtr) (clo chi : Vec 16)
    (flags : Nat) : Nat → HV 16 → HV 16
  | 0, h => h
  | b + 1, h =>
      blockCompressN (chunkBlocks16 inputs clo chi flags b h)
        (transpose_msg_vecs16 inputs (b * BLAKE3_BLOCK_LEN)) clo chi
        (chunkBlockFlags flags b)

/-- `BLAKE3_Hash16_AVX512`: hash 16 complete 1024-byte chunks in parallel.
`transpose_vecs16_out` stores, for each chunk `c`, the words
`temp[0][c] .. temp[7][c]`, i.e. lane `c` of the eight chaining-value
vectors, contiguously. -/
def BLAKE3_Hash16_AVX512 (inputs : Fin 16 → BytePtr) (key : Nat → Nat)
    (ctr flags : Nat) : List Nat :=
  let h : HV 16 :=
    ⟨set1 (key 0), set1 (key 1), set1 (key 2), set1 (key 3),
     set1 (key 4), set1 (key 5), set1 (key 6), set1 (key 7)⟩
  let clo := counterLowVec16 ctr
  let chi := counterHighVec16 ctr
  let h := chunkBlocks16 inputs clo chi flags 16 h
  laneHV h 0 ++ laneHV h 1 ++ laneHV h 2 ++ laneHV h 3 ++ laneHV h 4 ++
    laneHV h 5 ++ laneHV h 6 ++ laneHV h 7 ++ laneHV h 8 ++ laneHV h 9 ++
    laneHV h 10 ++ laneHV h 11 ++ laneHV h 12 ++ laneHV h 13 ++
    laneHV h 14 ++ laneHV h 15

/-- The trailing one-chunk-at-a-time loop
(`while (chunks_processed < num_chunks)`) shared verbatim by
`BLAKE3_HashMany_SSE41`, `BLAKE3_HashMany_AVX2` and
`BLAKE3_HashMany_AVX512`: the scalar per-chunk path at counter
`counter + chunks_processed`, writing 32 bytes per chunk.  Returns the
output words together with the final `chunks_processed`. -/
def hashManyLoop1 (input : BytePtr) (key : Nat → Nat) (ctr flags num : Nat) :
    Nat → List Nat × Nat
  | processed =>
    if h : processed < num then
      let r := hashManyLoop1 input key ctr flags num (processed + 1)
      (scalarChunkCV (fun o => input (processed * BLAKE3_CHUNK_LEN + o)) key
        ((ctr + processed) % W64) flags ++ r.1, r.2)
    else ([], processed)
termination_by processed => num - processed
decreasing_by omega

/-- The 4-chunks-at-a-time loop (`while (chunks_processed + 4 <=
num_chunks)`) of `BLAKE3_HashMany_SSE41`, also the fall-through stage of the
AVX2 and AVX512 variants; cedes to the scalar loop. -/
def hashManyLoop4 (input : BytePtr) (key : Nat → Nat) (ctr flags num : Nat) :
    Nat → List Nat × Nat
  | processed =>
    if h : processed + 4 ≤ num then
      let r := hashManyLoop4 input key ctr flags num (processed + 4)
      (BLAKE3_Hash4_SSE41
        (fun j => fun o => input ((processed + (j : Nat)) * BLAKE3_CHUNK_LEN + o))
        key ((ctr + processed) % W64) flags ++ r.1, r.2)
    else hashManyLoop1 input key ctr flags num processed
termination_by processed => num - processed
decreasing_by omega

/-- The 8-chunks-at-a-time loop of `BLAKE3_HashMany_AVX2`, also the
fall-through stage of the AVX512 variant; cedes to the 4-way loop. -/
def hashManyLoop8 (input : BytePtr) (key : Nat → Nat) (ctr flags num : Nat) :
    Nat → List Nat × Nat
  | processed =>
    if h : processed + 8 ≤ num then
      let r := hashManyLoop8 input key ctr flags num (processed + 8)
      (BLAKE3_Hash8_AVX2
        (fun j => fun o => input ((processed + (j : Nat)) * BLAKE3_CHUNK_LEN + o))
        key ((ctr + processed) % W64) flags ++ r.1, r.2)
    else hashManyLoop4 input key ctr flags num processed
termination_by processed => num - processed
decreasing_by omega

/-- The 16-chunks-at-a-time loop of `BLAKE3_HashMany_AVX512`; cedes to the
8-way loop. -/
def hashManyLoop16 (input : BytePtr) (key : Nat → Nat) (ctr flags num : Nat) :
    Nat → List Nat × Nat
  | processed =>
    if h : processed + 16 ≤ num then
      let r := hashManyLoop16 input key ctr flags num (processed + 16)
      (BLAKE3_Hash16_AVX512
        (fun j => fun o => input ((processed + (j : Nat)) * BLAKE3_CHUNK_LEN + o))
        key ((ctr + processed) % W64) flags ++ r.1, r.2)
    else hashManyLoop8 input key ctr flags num processed
termination_by processed => num - processed
decreasing_by omega

/-- `BLAKE3_HashMany_SSE41`: 4-way groups, then one chunk at a time.
Returns `(output words, chunks processed)`. -/
def BLAKE3_HashMany_SSE41 (input : BytePtr) (input_len : Nat)
    (key : Nat → Nat) (ctr flags : Nat) : List Nat × Nat :=
  hashManyLoop4 input key ctr flags (input_len / BLAKE3_CHUNK_LEN) 0

/-- `BLAKE3_HashMany_AVX2`: 8-way groups, then 4-way, then scalar. -/
def BLAKE3_HashMany_AVX2 (input : BytePtr) (input_len : Nat)
    (key : Nat → Nat) (ctr flags : Nat) : List Nat × Nat :=
  hashManyLoop8 input key ctr flags (input_len / BLAKE3_CHUNK_LEN) 0

/-- `BLAKE3_HashMany_AVX512`: 16-way groups, then 8-way, 4-way, scalar (the
`CRYPTOPP_AVX2_AVAILABLE` / `CRYPTOPP_SSE41_AVAILABLE` fall-through blocks
both compiled in). -/
def BLAKE3_HashMany_AVX512 (input : BytePtr) (input_len : Nat)
    (key : Nat → Nat) (ctr flags : Nat) : List Nat × Nat :=
  hashManyLoop16 input key ctr flags (input_len / BLAKE3_CHUNK_LEN) 0

/-- Reference output: the scalar per-chunk chaining values of `k` chunks
starting at chunk index `p`, concatenated. -/
def chunksRefFrom (input : BytePtr) (key : Nat → Nat) (ctr flags : Nat) :
    Nat → Nat → List Nat
  | _, 0 => []
  | p, k + 1 =>
      scalarChunkCV (fun o => input (p * BLAKE3_CHUNK_LEN + o)) key
        ((ctr + p) % W64) flags ++
        chunksRefFrom input key ctr flags (p + 1) k

/-- The seven rounds in the spec's column/diagonal form: round `r` applies
`specG` to the four columns and then the four diagonals with the message
schedule row `r`. -/
def spec7Rounds (s : VState) (w : Nat → Nat) : VState :=
  let s := specRoundW s (fun j => w (BLAKE3_MSG_SCHEDULE 0 j))
  let s := specRoundW s (fun j => w (BLAKE3_MSG_SCHEDULE 1 j))
  let s := specRoundW s (fun j => w (BLAKE3_MSG_SCHEDULE 2 j))
  let s := specRoundW s (fun j => w (BLAKE3_MSG_SCHEDULE 3 j))
  let s := specRoundW s (fun j => w (BLAKE3_MSG_SCHEDULE 4 j))
  let s := specRoundW s (fun j => w (BLAKE3_MSG_SCHEDULE 5 j))
  specRoundW s (fun j => w (BLAKE3_MSG_SCHEDULE 6 j))

/-- The second half of the XOF output: `v[8..16] XOR h[0..8]`. -/
def xofTail (s : VState) (cv : Nat → Nat) : List Nat :=
  [xor32 s.v8 (cv 0), xor32 s.v9 (cv 1), xor32 s.v10 (cv 2),
   xor32 s.v11 (cv 3), xor32 s.v12 (cv 4), xor32 s.v13 (cv 5),
   xor32 s.v14 (cv 6), xor32 s.v15 (cv 7)]

/-- Serialize 32-bit words little-endian to bytes. -/
def wordsToBytes : List Nat → List Nat
  | [] => []
  | w :: ws => w % 256 :: (w / 256) % 256 :: (w / 65536) % 256 ::
      (w / 16777216) % 256 :: wordsToBytes ws

/-- Uppercase hexadecimal digit. -/
def hexDigit (n : Nat) : Char :=
  if n < 10 then Char.ofNat (48 + n) else Char.ofNat (55 + n)

/-- Uppercase hexadecimal encoding of a byte list (as `HexEncoder` in the
tests). -/
def bytesToHex : List Nat → List Char
  | [] => []
  | b :: bs => hexDigit (b / 16) :: hexDigit (b % 16) :: bytesToHex bs

def hexOfBytes (bs : List Nat) : String := String.mk (bytesToHex bs)

/-- Modelled from the spec: the `ROOT` flag bit (value 8).  The flag table
lives in the absent `blake3.cpp`; the spec fixes `ROOT` = 8. -/
def BLAKE3_ROOT : Nat := 8

/-- Modelled from the spec: the driver path for a plain-mode input of at
most 64 bytes.  The streaming driver (`blake3.cpp`) is absent from the
sources; per the spec, such an input is compressed as exactly one root
block: chaining value = IV (the plain-mode key), the input zero-padded to
64 bytes, counter 0, block length = the input length, flags
`CHUNK_START | CHUNK_END | ROOT`. -/
def shortRootDigest (msg : List Nat) : List Nat :=
  BLAKE3_Compress_SSE41 BLAKE3_IV (fun i => msg.getD i 0) msg.length 0
    (BLAKE3_CHUNK_START ||| BLAKE3_CHUNK_END ||| BLAKE3_ROOT)

/-- The NEON message-vector array `m[4]`. -/
def neonMVec (m0 m1 m2 m3 : Vec 4) : Nat → Vec 4 := fun q =>
  match q with
  | 0 => m0
  | 1 => m1
  | 2 => m2
  | _ => m3

/-- `msg_words[i] = vgetq_lane_u32(m[idx / 4], idx % 4)` with
`idx = BLAKE3_MSG_SCHEDULE[round][i]`, from `BLAKE3_Compress_NEON`. -/
def neonMsgWord (m0 m1 m2 m3 : Vec 4) (round i : Nat) : Nat :=
  let idx := BLAKE3_MSG_SCHEDULE round i
  neonMVec m0 m1 m2 m3 (idx / 4) ⟨idx % 4, Nat.mod_lt _ (by omega)⟩

/-- One round of `BLAKE3_Compress_NEON`.  `g1_neon`/`g2_neon` perform the
same lane operations as the SSE4.1 `g1`/`g2`, and
`diagonalize_neon`/`undiagonalize_neon` (`vextq_u32` by 3, 2, 1) are the
same lane rotations as the SSE4.1 shuffles, so those embeddings are
reused.  Note the NEON source loads the diagonal-step message vectors as
`[s8,s10,s12,s14]` and `[s9,s11,s13,s15]` without the lane rotation that
the diagonalized row layout requires. -/
def neonRound (m0 m1 m2 m3 : Vec 4) (rows : Rows) (round : Nat) : Rows :=
  let msg := neonMsgWord m0 m1 m2 m3 round
  let mx := v4 (msg 0) (msg 2) (msg 4) (msg 6)
  let my := v4 (msg 1) (msg 3) (msg 5) (msg 7)
  let rows := g1 rows mx
  let rows := g2 rows my
  let rows := diagonalize rows
  let dx := v4 (msg 8) (msg 10) (msg 12) (msg 14)
  let dy := v4 (msg 9) (msg 11) (msg 13) (msg 15)
  let rows := g1 rows dx
  let rows := g2 rows dy
  undiagonalize rows

/-- The `for (round = 0; round < 7; round++)` loop of
`BLAKE3_Compress_NEON`. -/
def neonRounds (m0 m1 m2 m3 : Vec 4) : Nat → Rows → Rows
  | 0, rows => rows
  | r + 1, rows => neonRound m0 m1 m2 m3 (neonRounds m0 m1 m2 m3 r rows) r

/-- `BLAKE3_Compress_NEON`: the ARM NEON single-block compression. -/
def BLAKE3_Compress_NEON (cv : Nat → Nat) (block : BytePtr)
    (blen ctr flags : Nat) : List Nat :=
  let rows : Rows :=
    ⟨v4 (cv 0) (cv 1) (cv 2) (cv 3),
     v4 (cv 4) (cv 5) (cv 6) (cv 7),
     v4 (BLAKE3_IV 0) (BLAKE3_IV 1) (BLAKE3_IV 2) (BLAKE3_IV 3),
     v4 (ctr % W32) ((ctr >>> 32) % W32) blen flags⟩
  let m0 := loadu128 block 0
  let m1 := loadu128 block 16
  let m2 := loadu128 block 32
  let m3 := loadu128 block 48
  let rows := neonRounds m0 m1 m2 m3 7 rows
  store128 (xorv rows.r0 rows.r2) ++ store128 (xorv rows.r1 rows.r3)

/-- The 64-byte block holding the ASCII bytes of "abc", zero-padded. -/
def abcBlockPtr : BytePtr := fun i => [97, 98, 99].getD i 0

theorem rowsExt {a b : Rows} (h0 : ∀ i, a.r0 i = b.r0 i)
    (h1 : ∀ i, a.r1 i = b.r1 i) (h2 : ∀ i, a.r2 i = b.r2 i)
    (h3 : ∀ i, a.r3 i = b.r3 i) : a = b := by
  cases a with
  | mk a0 a1 a2 a3 =>
    cases b with
    | mk b0 b1 b2 b3 =>
      have e0 : a0 = b0 := funext h0
      have e1 : a1 = b1 := funext h1
      have e2 : a2 = b2 := funext h2
      have e3 : a3 = b3 := funext h3
      rw [e0, e1, e2, e3]

theorem rmExt {a b : RM} (h : a.rows = b.rows) (h0 : a.m0 = b.m0)
    (h1 : a.m1 = b.m1) (h2 : a.m2 = b.m2) (h3 : a.m3 = b.m3) : a = b := by
  cases a
  cases b
  cases h
  cases h0
  cases h1
  cases h2
  cases h3
  rfl

theorem unflatten_flattenRows (s : Rows) : unflatten (flattenRows s) = s := by
  refine rowsExt ?_ ?_ ?_ ?_ <;> intro i <;> fin_cases i <;> rfl

set_option maxHeartbeats 1600000 in
theorem sseRound1_eq (rows : Rows) (block : BytePtr) :
    sseRound1 rows (loadu128 block 0) (loadu128 block 16)
        (loadu128 block 32) (loadu128 block 48) =
      ⟨unflatten (flatRoundW (flattenRows rows) (blockWords block)),
       mp0 (blockWords block), mp1 (blockWords block),
       mp2 (blockWords block), mp3 (blockWords block)⟩ := by
  refine rmExt (rowsExt ?_ ?_ ?_ ?_) rfl rfl rfl rfl <;>
    intro i <;> fin_cases i <;> rfl

set_option maxHeartbeats 1600000 in
theorem sseLoopBody_eq (rows : Rows) (p : Nat → Nat) :
    sseLoopBody ⟨rows, mp0 p, mp1 p, mp2 p, mp3 p⟩ =
      ⟨unflatten (flatRoundW (flattenRows rows) (fun j => p (sigmaPerm j))),
       mp0 (fun i => p (sigmaPerm i)), mp1 (fun i => p (sigmaPerm i)),
       mp2 (fun i => p (sigmaPerm i)), mp3 (fun i => p (sigmaPerm i))⟩ := by
  refine rmExt (rowsExt ?_ ?_ ?_ ?_) rfl rfl rfl rfl <;>
    intro i <;> fin_cases i <;> rfl

theorem sseLoop_eq (k : Nat) : ∀ (rows : Rows) (p : Nat → Nat),
    (sseLoop k ⟨rows, mp0 p, mp1 p, mp2 p, mp3 p⟩).rows =
      unflatten (flatLoop k (flattenRows rows) p) := by
  induction k with
  | zero => intro rows p; exact (unflatten_flattenRows rows).symm
  | succ k ih =>
    intro rows p
    show (sseLoop k (sseLoopBody ⟨rows, mp0 p, mp1 p, mp2 p, mp3 p⟩)).rows = _
    rw [sseLoopBody_eq]
    rw [ih (unflatten (flatRoundW (flattenRows rows) (fun j => p (sigmaPerm j))))
        (fun i => p (sigmaPerm i))]
    rfl

/-- `compress_pre` computes exactly the seven flat rounds over the state
`h || IV || t_lo, t_hi, b, d` with the message schedule. -/
theorem compress_pre_flat (cv : Nat → Nat) (block : BytePtr)
    (blen ctr flags : Nat) :
    flattenRows (compress_pre cv block blen ctr flags) =
      flat7 (initV cv blen ctr flags) (blockWords block) := by
  show flattenRows (sseLoop 6 (sseRound1 _ _ _ _ _)).rows = _
  rw [sseRound1_eq, sseLoop_eq]
  rfl

theorem laneW_roundFnN {n : Nat} (s : WState n) (m : Nat → Vec n) (r : Nat)
    (c : Fin n) :
    laneW (roundFnN s m r) c =
      flatRoundW (laneW s c) (fun j => m (BLAKE3_MSG_SCHEDULE r j) c) := rfl

set_option maxHeartbeats 1600000 in
theorem blockCompressN_lane {n : Nat} (h : HV n) (m : Nat → Vec n)
    (clo chi : Vec n) (bflags : Nat) (c : Fin n) :
    laneHV (blockCompressN h m clo chi bflags) c =
      flatBlockStep (laneHV h c) (fun w => m w c) (clo c) (chi c) bflags := by
  show flatFinalize (laneW (roundFnN (roundFnN (roundFnN (roundFnN (roundFnN
      (roundFnN (roundFnN
        ⟨h.h0, h.h1, h.h2, h.h3, h.h4, h.h5, h.h6, h.h7,
         set1 (BLAKE3_IV 0), set1 (BLAKE3_IV 1), set1 (BLAKE3_IV 2),
         set1 (BLAKE3_IV 3), clo, chi, set1 BLAKE3_BLOCK_LEN, set1 bflags⟩
        m 0) m 1) m 2) m 3) m 4) m 5) m 6) c) = _
  rw [laneW_roundFnN, laneW_roundFnN, laneW_roundFnN, laneW_roundFnN,
    laneW_roundFnN, laneW_roundFnN, laneW_roundFnN]
  rfl

theorem add32_add32_comm (a b m : Nat) :
    add32 (add32 a m) b = add3 a b m := by
  unfold add32 add3 W32
  omega

/-- The source-order round and the spec-order round agree: the statement
interleaving of `round_fnN` and the diagonal indexing are exactly the
column/diagonal G applications of the specification. -/
theorem flatRoundW_eq_specRoundW (s : VState) (mw : Nat → Nat) :
    flatRoundW s mw = specRoundW s mw := by
  simp only [flatRoundW, specRoundW, specG, add32_add32_comm]

theorem mod64_mod32 (t : Nat) : t % W64 % W32 = t % W32 := by
  unfold W64 W32
  omega

theorem shr64_mod32 (t : Nat) :
    ((t % W64) >>> 32) % W32 = (t >>> 32) % W32 := by
  simp only [Nat.shiftRight_eq_div_pow]
  unfold W64 W32
  omega

/-- `BLAKE3_Compress_SSE41` in flat form. -/
theorem compressSSE_flat (cv : Nat → Nat) (block : BytePtr)
    (blen ctr flags : Nat) :
    BLAKE3_Compress_SSE41 cv block blen ctr flags =
      flatFinalize (flat7 (initV cv blen ctr flags) (blockWords block)) := by
  rw [← compress_pre_flat]
  rfl

theorem flatRoundW_congr {s : VState} {m1 m2 : Nat → Nat}
    (h : ∀ j, j < 16 → m1 j = m2 j) : flatRoundW s m1 = flatRoundW s m2 := by
  have e0 := h 0 (by omega)
  have e1 := h 1 (by omega)
  have e2 := h 2 (by omega)
  have e3 := h 3 (by omega)
  have e4 := h 4 (by omega)
  have e5 := h 5 (by omega)
  have e6 := h 6 (by omega)
  have e7 := h 7 (by omega)
  have e8 := h 8 (by omega)
  have e9 := h 9 (by omega)
  have e10 := h 10 (by omega)
  have e11 := h 11 (by omega)
  have e12 := h 12 (by omega)
  have e13 := h 13 (by omega)
  have e14 := h 14 (by omega)
  have e15 := h 15 (by omega)
  simp only [flatRoundW, e0, e1, e2, e3, e4, e5, e6, e7, e8, e9, e10, e11,
    e12, e13, e14, e15]

theorem sigmaPerm_lt (j : Nat) (hj : j < 16) : sigmaPerm j < 16 := by
  interval_cases j <;> decide

theorem sched_lt (r : Nat) : ∀ (j : Nat), j < 16 → BLAKE3_MSG_SCHEDULE r j < 16 := by
  induction r with
  | zero => intro j hj; exact hj
  | succ r ih => intro j hj; exact ih _ (sigmaPerm_lt j hj)

theorem flat7_congr {s : VState} {w1 w2 : Nat → Nat}
    (h : ∀ j, j < 16 → w1 j = w2 j) : flat7 s w1 = flat7 s w2 := by
  have hs : ∀ (r : Nat) (v : VState),
      flatRoundW v (fun j => w1 (BLAKE3_MSG_SCHEDULE r j)) =
        flatRoundW v (fun j => w2 (BLAKE3_MSG_SCHEDULE r j)) :=
    fun r v => flatRoundW_congr (fun j hj => h _ (sched_lt r j hj))
  simp only [flat7]
  rw [hs 0, hs 1, hs 2, hs 3, hs 4, hs 5, hs 6]

theorem flatBlockStep_congr {cv : List Nat} {m1 m2 : Nat → Nat}
    {tlo thi bf : Nat} (h : ∀ w, w < 16 → m1 w = m2 w) :
    flatBlockStep cv m1 tlo thi bf = flatBlockStep cv m2 tlo thi bf := by
  unfold flatBlockStep
  rw [flat7_congr h]

/-- The scalar fallback equals the flat chunk tower with the counter split
once into its 32-bit halves. -/
theorem scalarChunkBlocks_flat (chunk : BytePtr) (t flags : Nat) :
    ∀ (b : Nat) (cv : List Nat),
    scalarChunkBlocks chunk t flags b cv =
      flatChunkBlocks chunk (t % W32) ((t >>> 32) % W32) flags b cv := by
  intro b
  induction b with
  | zero => intro cv; rfl
  | succ b ih =>
      intro cv
      show BLAKE3_Compress_SSE41
          (listToPtr (scalarChunkBlocks chunk t flags b cv)) _ _ _ _ = _
      rw [compressSSE_flat, ih]
      rfl

theorem scalarChunkCV_flat (chunk : BytePtr) (key : Nat → Nat)
    (t flags : Nat) :
    scalarChunkCV chunk key t flags =
      flatChunkBlocks chunk (t % W32) ((t >>> 32) % W32) flags 16
        [key 0, key 1, key 2, key 3, key 4, key 5, key 6, key 7] :=
  scalarChunkBlocks_flat chunk t flags 16 _

/-- The interleaved output stores of `BLAKE3_Hash4_SSE41` lay out the four
lanes of the transposed chaining-value vectors contiguously, chunk by
chunk. -/
theorem hash4_stores (h : HV 4) :
    store128 (transpose_vecs h.h0 h.h1 h.h2 h.h3).1 ++
      store128 (transpose_vecs h.h4 h.h5 h.h6 h.h7).1 ++
      store128 (transpose_vecs h.h0 h.h1 h.h2 h.h3).2.1 ++
      store128 (transpose_vecs h.h4 h.h5 h.h6 h.h7).2.1 ++
      store128 (transpose_vecs h.h0 h.h1 h.h2 h.h3).2.2.1 ++
      store128 (transpose_vecs h.h4 h.h5 h.h6 h.h7).2.2.1 ++
      store128 (transpose_vecs h.h0 h.h1 h.h2 h.h3).2.2.2 ++
      store128 (transpose_vecs h.h4 h.h5 h.h6 h.h7).2.2.2 =
      laneHV h 0 ++ laneHV h 1 ++ laneHV h 2 ++ laneHV h 3 := rfl

/-- The output of `BLAKE3_Hash4_SSE41` is the four lanes of the final
chaining-value vectors, chunk by chunk. -/
theorem hash4_decomp (inputs : Fin 4 → BytePtr) (key : Nat → Nat)
    (ctr flags : Nat) :
    BLAKE3_Hash4_SSE41 inputs key ctr flags =
      laneHV (chunkBlocks4 inputs (counterLowVec4 ctr) (counterHighVec4 ctr)
        flags 16
        ⟨set1 (key 0), set1 (key 1), set1 (key 2), set1 (key 3),
         set1 (key 4), set1 (key 5), set1 (key 6), set1 (key 7)⟩) 0 ++
      laneHV (chunkBlocks4 inputs (counterLowVec4 ctr) (counterHighVec4 ctr)
        flags 16
        ⟨set1 (key 0), set1 (key 1), set1 (key 2), set1 (key 3),
         set1 (key 4), set1 (key 5), set1 (key 6), set1 (key 7)⟩) 1 ++
      laneHV (chunkBlocks4 inputs (counterLowVec4 ctr) (counterHighVec4 ctr)
        flags 16
        ⟨set1 (key 0), set1 (key 1), set1 (key 2), set1 (key 3),
         set1 (key 4), set1 (key 5), set1 (key 6), set1 (key 7)⟩) 2 ++
      laneHV (chunkBlocks4 inputs (counterLowVec4 ctr) (counterHighVec4 ctr)
        flags 16
        ⟨set1 (key 0), set1 (key 1), set1 (key 2), set1 (key 3),
         set1 (key 4), set1 (key 5), set1 (key 6), set1 (key 7)⟩) 3 :=
  hash4_stores _

theorem finFour0 (h : 0 < 4) : (⟨0, h⟩ : Fin 4) = 0 := rfl

theorem finFour1 (h : 1 < 4) : (⟨1, h⟩ : Fin 4) = 1 := rfl

theorem finFour2 (h : 2 < 4) : (⟨2, h⟩ : Fin 4) = 2 := rfl

theorem finFour3 (h : 3 < 4) : (⟨3, h⟩ : Fin 4) = 3 := rfl

set_option maxHeartbeats 12800000 in
/-- Each lane of the 4-way block loop computes the flat chunk tower of its
own chunk pointer and counter lanes. -/
theorem chunkBlocks4_lane (inputs : Fin 4 → BytePtr) (clo chi : Vec 4)
    (flags : Nat) : ∀ (b : Nat) (h : HV 4) (c : Fin 4),
    laneHV (chunkBlocks4 inputs clo chi flags b h) c =
      flatChunkBlocks (inputs c) (clo c) (chi c) flags b (laneHV h c) := by
  intro b
  induction b with
  | zero => intro h c; rfl
  | succ b ih =>
      intro h c
      show laneHV (blockCompressN (chunkBlocks4 inputs clo chi flags b h)
        (transpose_msg_vecs4 inputs (b * BLAKE3_BLOCK_LEN)) clo chi
        (chunkBlockFlags flags b)) c = _
      rw [blockCompressN_lane, ih]
      show flatBlockStep _ _ _ _ _ =
        flatBlockStep _
          (blockWords (fun o => inputs c (b * BLAKE3_BLOCK_LEN + o))) _ _ _
      apply flatBlockStep_congr
      intro w hw
      interval_cases w <;> fin_cases c <;>
        simp only [transpose_msg_vecs4, transpose_vecs, loadu128,
          unpacklo32, unpackhi32, unpacklo64, unpackhi64, v4, blockWords,
          w32at, BLAKE3_BLOCK_LEN, finFour0, finFour1, finFour2, finFour3]

theorem finEight0 (h : 0 < 8) : (⟨0, h⟩ : Fin 8) = 0 := rfl

theorem finEight1 (h : 1 < 8) : (⟨1, h⟩ : Fin 8) = 1 := rfl

theorem finEight2 (h : 2 < 8) : (⟨2, h⟩ : Fin 8) = 2 := rfl

theorem finEight3 (h : 3 < 8) : (⟨3, h⟩ : Fin 8) = 3 := rfl

theorem finEight4 (h : 4 < 8) : (⟨4, h⟩ : Fin 8) = 4 := rfl

theorem finEight5 (h : 5 < 8) : (⟨5, h⟩ : Fin 8) = 5 := rfl

theorem finEight6 (h : 6 < 8) : (⟨6, h⟩ : Fin 8) = 6 := rfl

theorem finEight7 (h : 7 < 8) : (⟨7, h⟩ : Fin 8) = 7 := rfl

set_option maxHeartbeats 12800000 in
/-- Each lane of the 8-way block loop computes the flat chunk tower of its
own chunk pointer and counter lanes. -/
theorem chunkBlocks8_lane (inputs : Fin 8 → BytePtr) (clo chi : Vec 8)
    (flags : Nat) : ∀ (b : Nat) (h : HV 8) (c : Fin 8),
    laneHV (chunkBlocks8 inputs clo chi flags b h) c =
      flatChunkBlocks (inputs c) (clo c) (chi c) flags b (laneHV h c) := by
  intro b
  induction b with
  | zero => intro h c; rfl
  | succ b ih =>
      intro h c
      show laneHV (blockCompressN (chunkBlocks8 inputs clo chi flags b h)
        (transpose_msg_vecs8 inputs (b * BLAKE3_BLOCK_LEN)) clo chi
        (chunkBlockFlags flags b)) c = _
      rw [blockCompressN_lane, ih]
      show flatBlockStep _ _ _ _ _ =
        flatBlockStep _
          (blockWords (fun o => inputs c (b * BLAKE3_BLOCK_LEN + o))) _ _ _
      apply flatBlockStep_congr
      intro w hw
      interval_cases w <;> fin_cases c <;>
        simp only [transpose_msg_vecs8, v8, blockWords, w32at,
          BLAKE3_BLOCK_LEN, finEight0, finEight1, finEight2, finEight3,
          finEight4, finEight5, finEight6, finEight7]

/-- The output stores of `BLAKE3_Hash8_AVX2` lay out the eight lanes of the
transposed chaining-value vectors contiguously, chunk by chunk. -/
theorem hash8_stores (h : HV 8) :
    store256 (transpose_vecs256 h.h0 h.h1 h.h2 h.h3 h.h4 h.h5 h.h6 h.h7).1 ++
      store256 (transpose_vecs256 h.h0 h.h1 h.h2 h.h3 h.h4 h.h5 h.h6
        h.h7).2.1 ++
      store256 (transpose_vecs256 h.h0 h.h1 h.h2 h.h3 h.h4 h.h5 h.h6
        h.h7).2.2.1 ++
      store256 (transpose_vecs256 h.h0 h.h1 h.h2 h.h3 h.h4 h.h5 h.h6
        h.h7).2.2.2.1 ++
      store256 (transpose_vecs256 h.h0 h.h1 h.h2 h.h3 h.h4 h.h5 h.h6
        h.h7).2.2.2.2.1 ++
      store256 (transpose_vecs256 h.h0 h.h1 h.h2 h.h3 h.h4 h.h5 h.h6
        h.h7).2.2.2.2.2.1 ++
      store256 (transpose_vecs256 h.h0 h.h1 h.h2 h.h3 h.h4 h.h5 h.h6
        h.h7).2.2.2.2.2.2.1 ++
      store256 (transpose_vecs256 h.h0 h.h1 h.h2 h.h3 h.h4 h.h5 h.h6
        h.h7).2.2.2.2.2.2.2 =
      laneHV h 0 ++ laneHV h 1 ++ laneHV h 2 ++ laneHV h 3 ++ laneHV h 4 ++
        laneHV h 5 ++ laneHV h 6 ++ laneHV h 7 := rfl

/-- The output of `BLAKE3_Hash8_AVX2` is the eight lanes of the final
chaining-value vectors, chunk by chunk. -/
theorem hash8_decomp (inputs : Fin 8 → BytePtr) (key : Nat → Nat)
    (ctr flags : Nat) :
    BLAKE3_Hash8_AVX2 inputs key ctr flags =
      laneHV (chunkBlocks8 inputs (counterLowVec8 ctr) (counterHighVec8 ctr)
        flags 16
        ⟨set1 (key 0), set1 (key 1), set1 (key 2), set1 (key 3),
         set1 (key 4), set1 (key 5), set1 (key 6), set1 (key 7)⟩) 0 ++
      laneHV (chunkBlocks8 inputs (counterLowVec8 ctr) (counterHighVec8 ctr)
        flags 16
        ⟨set1 (key 0), set1 (key 1), set1 (key 2), set1 (key 3),
         set1 (key 4), set1 (key 5), set1 (key 6), set1 (key 7)⟩) 1 ++
      laneHV (chunkBlocks8 inputs (counterLowVec8 ctr) (counterHighVec8 ctr)
        flags 16
        ⟨set1 (key 0), set1 (key 1), set1 (key 2), set1 (key 3),
         set1 (key 4), set1 (key 5), set1 (key 6), set1 (key 7)⟩) 2 ++
      laneHV (chunkBlocks8 inputs (counterLowVec8 ctr) (counterHighVec8 ctr)
        flags 16
        ⟨set1 (key 0), set1 (key 1), set1 (key 2), set1 (key 3),
         set1 (key 4), set1 (key 5), set1 (key 6), set1 (key 7)⟩) 3 ++
      laneHV (chunkBlocks8 inputs (counterLowVec8 ctr) (counterHighVec8 ctr)
        flags 16
        ⟨set1 (key 0), set1 (key 1), set1 (key 2), set1 (key 3),
         set1 (key 4), set1 (key 5), set1 (key 6), set1 (key 7)⟩) 4 ++
      laneHV (chunkBlocks8 inputs (counterLowVec8 ctr) (counterHighVec8 ctr)
        flags 16
        ⟨set1 (key 0), set1 (key 1), set1 (key 2), set1 (key 3),
         set1 (key 4), set1 (key 5), set1 (key 6), set1 (key 7)⟩) 5 ++
      laneHV (chunkBlocks8 inputs (counterLowVec8 ctr) (counterHighVec8 ctr)
        flags 16
        ⟨set1 (key 0), set1 (key 1), set1 (key 2), set1 (key 3),
         set1 (key 4), set1 (key 5), set1 (key 6), set1 (key 7)⟩) 6 ++
      laneHV (chunkBlocks8 inputs (counterLowVec8 ctr) (counterHighVec8 ctr)
        flags 16
        ⟨set1 (key 0), set1 (key 1), set1 (key 2), set1 (key 3),
         set1 (key 4), set1 (key 5), set1 (key 6), set1 (key 7)⟩) 7 :=
  hash8_stores _

/-- `BLAKE3_Hash8_AVX2` produces, for every chunk, the chaining value the
scalar path computes for that chunk at counter `ctr + i` (64-bit). -/
theorem hash8_eq_scalar (inputs : Fin 8 → BytePtr) (key : Nat → Nat)
    (ctr flags : Nat) :
    BLAKE3_Hash8_AVX2 inputs key ctr flags =
      scalarChunkCV (inputs 0) key (ctr % W64) flags ++
      scalarChunkCV (inputs 1) key ((ctr + 1) % W64) flags ++
      scalarChunkCV (inputs 2) key ((ctr + 2) % W64) flags ++
      scalarChunkCV (inputs 3) key ((ctr + 3) % W64) flags ++
      scalarChunkCV (inputs 4) key ((ctr + 4) % W64) flags ++
      scalarChunkCV (inputs 5) key ((ctr + 5) % W64) flags ++
      scalarChunkCV (inputs 6) key ((ctr + 6) % W64) flags ++
      scalarChunkCV (inputs 7) key ((ctr + 7) % W64) flags := by
  rw [hash8_decomp]
  rw [scalarChunkCV_flat, scalarChunkCV_flat, scalarChunkCV_flat,
    scalarChunkCV_flat, scalarChunkCV_flat, scalarChunkCV_flat,
    scalarChunkCV_flat, scalarChunkCV_flat]
  simp only [chunkBlocks8_lane]
  rw [mod64_mod32, shr64_mod32]
  rfl

theorem finSixteen0 (h : 0 < 16) : (⟨0, h⟩ : Fin 16) = 0 := rfl

theorem finSixteen1 (h : 1 < 16) : (⟨1, h⟩ : Fin 16) = 1 := rfl

theorem finSixteen2 (h : 2 < 16) : (⟨2, h⟩ : Fin 16) = 2 := rfl

theorem finSixteen3 (h : 3 < 16) : (⟨3, h⟩ : Fin 16) = 3 := rfl

theorem finSixteen4 (h : 4 < 16) : (⟨4, h⟩ : Fin 16) = 4 := rfl

theorem finSixteen5 (h : 5 < 16) : (⟨5, h⟩ : Fin 16) = 5 := rfl

theorem finSixteen6 (h : 6 < 16) : (⟨6, h⟩ : Fin 16) = 6 := rfl

theorem finSixteen7 (h : 7 < 16) : (⟨7, h⟩ : Fin 16) = 7 := rfl

theorem finSixteen8 (h : 8 < 16) : (⟨8, h⟩ : Fin 16) = 8 := rfl

theorem finSixteen9 (h : 9 < 16) : (⟨9, h⟩ : Fin 16) = 9 := rfl

theorem finSixteen10 (h : 10 < 16) : (⟨10, h⟩ : Fin 16) = 10 := rfl

theorem finSixteen11 (h : 11 < 16) : (⟨11, h⟩ : Fin 16) = 11 := rfl

theorem finSixteen12 (h : 12 < 16) : (⟨12, h⟩ : Fin 16) = 12 := rfl

theorem finSixteen13 (h : 13 < 16) : (⟨13, h⟩ : Fin 16) = 13 := rfl

theorem finSixteen14 (h : 14 < 16) : (⟨14, h⟩ : Fin 16) = 14 := rfl

theorem finSixteen15 (h : 15 < 16) : (⟨15, h⟩ : Fin 16) = 15 := rfl

set_option maxHeartbeats 12800000 in
/-- Each lane of the 16-way block loop computes the flat chunk tower of its
own chunk pointer and counter lanes. -/
theorem chunkBlocks16_lane (inputs : Fin 16 → BytePtr) (clo chi : Vec 16)
    (flags : Nat) : ∀ (b : Nat) (h : HV 16) (c : Fin 16),
    laneHV (chunkBlocks16 inputs clo chi flags b h) c =
      flatChunkBlocks (inputs c) (clo c) (chi c) flags b (laneHV h c) := by
  intro b
  induction b with
  | zero => intro h c; rfl
  | succ b ih =>
      intro h c
      show laneHV (blockCompressN (chunkBlocks16 inputs clo chi flags b h)
        (transpose_msg_vecs16 inputs (b * BLAKE3_BLOCK_LEN)) clo chi
        (chunkBlockFlags flags b)) c = _
      rw [blockCompressN_lane, ih]
      show flatBlockStep _ _ _ _ _ =
        flatBlockStep _
          (blockWords (fun o => inputs c (b * BLAKE3_BLOCK_LEN + o))) _ _ _
      apply flatBlockStep_congr
      intro w hw
      fin_cases c <;>
        (simp only [transpose_msg_vecs16, v16, blockWords, w32at,
          BLAKE3_BLOCK_LEN, finSixteen0, finSixteen1, finSixteen2,
          finSixteen3, finSixteen4, finSixteen5, finSixteen6, finSixteen7,
          finSixteen8, finSixteen9, finSixteen10, finSixteen11, finSixteen12,
          finSixteen13, finSixteen14, finSixteen15]
         ring_nf)

set_option maxHeartbeats 1600000 in
/-- `BLAKE3_Hash16_AVX512` produces, for every chunk, the chaining value the
scalar path computes for that chunk at counter `ctr + i` (64-bit). -/
theorem hash16_eq_scalar (inputs : Fin 16 → BytePtr) (key : Nat → Nat)
    (ctr flags : Nat) :
    BLAKE3_Hash16_AVX512 inputs key ctr flags =
      scalarChunkCV (inputs 0) key (ctr % W64) flags ++
      scalarChunkCV (inputs 1) key ((ctr + 1) % W64) flags ++
      scalarChunkCV (inputs 2) key ((ctr + 2) % W64) flags ++
      scalarChunkCV (inputs 3) key ((ctr + 3) % W64) flags ++
      scalarChunkCV (inputs 4) key ((ctr + 4) % W64) flags ++
      scalarChunkCV (inputs 5) key ((ctr + 5) % W64) flags ++
      scalarChunkCV (inputs 6) key ((ctr + 6) % W64) flags ++
      scalarChunkCV (inputs 7) key ((ctr + 7) % W64) flags ++
      scalarChunkCV (inputs 8) key ((ctr + 8) % W64) flags ++
      scalarChunkCV (inputs 9) key ((ctr + 9) % W64) flags ++
      scalarChunkCV (inputs 10) key ((ctr + 10) % W64) flags ++
      scalarChunkCV (inputs 11) key ((ctr + 11) % W64) flags ++
      scalarChunkCV (inputs 12) key ((ctr + 12) % W64) flags ++
      scalarChunkCV (inputs 13) key ((ctr + 13) % W64) flags ++
      scalarChunkCV (inputs 14) key ((ctr + 14) % W64) flags ++
      scalarChunkCV (inputs 15) key ((ctr + 15) % W64) flags := by
  simp only [BLAKE3_Hash16_AVX512]
  rw [scalarChunkCV_flat, scalarChunkCV_flat, scalarChunkCV_flat,
    scalarChunkCV_flat, scalarChunkCV_flat, scalarChunkCV_flat,
    scalarChunkCV_flat, scalarChunkCV_flat, scalarChunkCV_flat,
    scalarChunkCV_flat, scalarChunkCV_flat, scalarChunkCV_flat,
    scalarChunkCV_flat, scalarChunkCV_flat, scalarChunkCV_flat,
    scalarChunkCV_flat]
  simp only [chunkBlocks16_lane]
  rw [mod64_mod32, shr64_mod32]
  rfl

/-- `BLAKE3_Hash4_SSE41` produces, for every chunk, the chaining value the
scalar path computes for that chunk at counter `ctr + i` (64-bit). -/
theorem hash4_eq_scalar (inputs : Fin 4 → BytePtr) (key : Nat → Nat)
    (ctr flags : Nat) :
    BLAKE3_Hash4_SSE41 inputs key ctr flags =
      scalarChunkCV (inputs 0) key (ctr % W64) flags ++
      scalarChunkCV (inputs 1) key ((ctr + 1) % W64) flags ++
      scalarChunkCV (inputs 2) key ((ctr + 2) % W64) flags ++
      scalarChunkCV (inputs 3) key ((ctr + 3) % W64) flags := by
  rw [hash4_decomp]
  rw [scalarChunkCV_flat, scalarChunkCV_flat, scalarChunkCV_flat,
    scalarChunkCV_flat]
  simp only [chunkBlocks4_lane]
  rw [mod64_mod32, shr64_mod32]
  rfl

theorem finV4x0 : (((0 : Fin 4)) : Nat) = 0 := rfl

theorem finV4x1 : (((1 : Fin 4)) : Nat) = 1 := rfl

theorem finV4x2 : (((2 : Fin 4)) : Nat) = 2 := rfl

theorem finV4x3 : (((3 : Fin 4)) : Nat) = 3 := rfl

theorem finV8x0 : (((0 : Fin 8)) : Nat) = 0 := rfl

theorem finV8x1 : (((1 : Fin 8)) : Nat) = 1 := rfl

theorem finV8x2 : (((2 : Fin 8)) : Nat) = 2 := rfl

theorem finV8x3 : (((3 : Fin 8)) : Nat) = 3 := rfl

theorem finV8x4 : (((4 : Fin 8)) : Nat) = 4 := rfl

theorem finV8x5 : (((5 : Fin 8)) : Nat) = 5 := rfl

theorem finV8x6 : (((6 : Fin 8)) : Nat) = 6 := rfl

theorem finV8x7 : (((7 : Fin 8)) : Nat) = 7 := rfl

theorem finV16x0 : (((0 : Fin 16)) : Nat) = 0 := rfl

theorem finV16x1 : (((1 : Fin 16)) : Nat) = 1 := rfl

theorem finV16x2 : (((2 : Fin 16)) : Nat) = 2 := rfl

theorem finV16x3 : (((3 : Fin 16)) : Nat) = 3 := rfl

theorem finV16x4 : (((4 : Fin 16)) : Nat) = 4 := rfl

theorem finV16x5 : (((5 : Fin 16)) : Nat) = 5 := rfl

theorem finV16x6 : (((6 : Fin 16)) : Nat) = 6 := rfl

theorem finV16x7 : (((7 : Fin 16)) : Nat) = 7 := rfl

theorem finV16x8 : (((8 : Fin 16)) : Nat) = 8 := rfl

theorem finV16x9 : (((9 : Fin 16)) : Nat) = 9 := rfl

theorem finV16x10 : (((10 : Fin 16)) : Nat) = 10 := rfl

theorem finV16x11 : (((11 : Fin 16)) : Nat) = 11 := rfl

theorem finV16x12 : (((12 : Fin 16)) : Nat) = 12 := rfl

theorem finV16x13 : (((13 : Fin 16)) : Nat) = 13 := rfl

theorem finV16x14 : (((14 : Fin 16)) : Nat) = 14 := rfl

theorem finV16x15 : (((15 : Fin 16)) : Nat) = 15 := rfl

theorem hashManyLoop1_spec (input : BytePtr) (key : Nat → Nat)
    (ctr flags : Nat) : ∀ (k p : Nat),
    hashManyLoop1 input key ctr flags (p + k) p =
      (chunksRefFrom input key ctr flags p k, p + k) := by
  intro k
  induction k with
  | zero =>
      intro p
      unfold hashManyLoop1
      rw [dif_neg (by omega)]
      simp [chunksRefFrom]
  | succ k ih =>
      intro p
      unfold hashManyLoop1
      rw [dif_pos (by omega)]
      have hnum : p + (k + 1) = (p + 1) + k := by omega
      rw [hnum, ih (p + 1)]
      simp [chunksRefFrom]

theorem hashManyLoop4_spec (input : BytePtr) (key : Nat → Nat)
    (ctr flags : Nat) : ∀ (k p : Nat),
    hashManyLoop4 input key ctr flags (p + k) p =
      (chunksRefFrom input key ctr flags p k, p + k) := by
  intro k
  induction k using Nat.strong_induction_on with
  | _ k ih =>
    intro p
    by_cases h4 : 4 ≤ k
    · obtain ⟨g, rfl⟩ : ∃ g, k = g + 4 := ⟨k - 4, by omega⟩
      unfold hashManyLoop4
      rw [dif_pos (by omega)]
      have hnum : p + (g + 4) = (p + 4) + g := by omega
      rw [hnum, ih g (by omega) (p + 4), hash4_eq_scalar]
      have e0 : ((ctr + p) % W64) % W64 = (ctr + p) % W64 := by
        unfold W64; omega
      have e1 : ((ctr + p) % W64 + 1) % W64 = (ctr + (p + 1)) % W64 := by
        unfold W64; omega
      have e2 : ((ctr + p) % W64 + 2) % W64 = (ctr + (p + 2)) % W64 := by
        unfold W64; omega
      have e3 : ((ctr + p) % W64 + 3) % W64 = (ctr + (p + 3)) % W64 := by
        unfold W64; omega
      rw [e0, e1, e2, e3]
      have ad1 : p + 1 + 1 = p + 2 := by omega
      have ad2 : p + 2 + 1 = p + 3 := by omega
      have ad3 : p + 3 + 1 = p + 4 := by omega
      simp [chunksRefFrom, List.append_assoc, finV4x0, finV4x1, finV4x2, finV4x3, ad1, ad2, ad3]
    · unfold hashManyLoop4
      rw [dif_neg (by omega)]
      exact hashManyLoop1_spec input key ctr flags k p

theorem hashManyLoop8_spec (input : BytePtr) (key : Nat → Nat)
    (ctr flags : Nat) : ∀ (k p : Nat),
    hashManyLoop8 input key ctr flags (p + k) p =
      (chunksRefFrom input key ctr flags p k, p + k) := by
  intro k
  induction k using Nat.strong_induction_on with
  | _ k ih =>
    intro p
    by_cases h8 : 8 ≤ k
    · obtain ⟨g, rfl⟩ : ∃ g, k = g + 8 := ⟨k - 8, by omega⟩
      unfold hashManyLoop8
      rw [dif_pos (by omega)]
      have hnum : p + (g + 8) = (p + 8) + g := by omega
      rw [hnum, ih g (by omega) (p + 8), hash8_eq_scalar]
      have e0 : ((ctr + p) % W64) % W64 = (ctr + p) % W64 := by
        unfold W64; omega
      have e1 : ((ctr + p) % W64 + 1) % W64 = (ctr + (p + 1)) % W64 := by
        unfold W64; omega
      have e2 : ((ctr + p) % W64 + 2) % W64 = (ctr + (p + 2)) % W64 := by
        unfold W64; omega
      have e3 : ((ctr + p) % W64 + 3) % W64 = (ctr + (p + 3)) % W64 := by
        unfold W64; omega
      have e4 : ((ctr + p) % W64 + 4) % W64 = (ctr + (p + 4)) % W64 := by
        unfold W64; omega
      have e5 : ((ctr + p) % W64 + 5) % W64 = (ctr + (p + 5)) % W64 := by
        unfold W64; omega
      have e6 : ((ctr + p) % W64 + 6) % W64 = (ctr + (p + 6)) % W64 := by
        unfold W64; omega
      have e7 : ((ctr + p) % W64 + 7) % W64 = (ctr + (p + 7)) % W64 := by
        unfold W64; omega
      rw [e0, e1, e2, e3, e4, e5, e6, e7]
      have ad1 : p + 1 + 1 = p + 2 := by omega
      have ad2 : p + 2 + 1 = p + 3 := by omega
      have ad3 : p + 3 + 1 = p + 4 := by omega
      have ad4 : p + 4 + 1 = p + 5 := by omega
      have ad5 : p + 5 + 1 = p + 6 := by omega
      have ad6 : p + 6 + 1 = p + 7 := by omega
      have ad7 : p + 7 + 1 = p + 8 := by omega
      simp [chunksRefFrom, List.append_assoc, finV8x0, finV8x1, finV8x2, finV8x3, finV8x4, finV8x5, finV8x6, finV8x7, ad1, ad2, ad3, ad4, ad5, ad6, ad7]
    · unfold hashManyLoop8
      rw [dif_neg (by omega)]
      exact hashManyLoop4_spec input key ctr flags k p

theorem hashManyLoop16_spec (input : BytePtr) (key : Nat → Nat)
    (ctr flags : Nat) : ∀ (k p : Nat),
    hashManyLoop16 input key ctr flags (p + k) p =
      (chunksRefFrom input key ctr flags p k, p + k) := by
  intro k
  induction k using Nat.strong_induction_on with
  | _ k ih =>
    intro p
    by_cases h16 : 16 ≤ k
    · obtain ⟨g, rfl⟩ : ∃ g, k = g + 16 := ⟨k - 16, by omega⟩
      unfold hashManyLoop16
      rw [dif_pos (by omega)]
      have hnum : p + (g + 16) = (p + 16) + g := by omega
      rw [hnum, ih g (by omega) (p + 16), hash16_eq_scalar]
      have e0 : ((ctr + p) % W64) % W64 = (ctr + p) % W64 := by
        unfold W64; omega
      have e1 : ((ctr + p) % W64 + 1) % W64 = (ctr + (p + 1)) % W64 := by
        unfold W64; omega
      have e2 : ((ctr + p) % W64 + 2) % W64 = (ctr + (p + 2)) % W64 := by
        unfold W64; omega
      have e3 : ((ctr + p) % W64 + 3) % W64 = (ctr + (p + 3)) % W64 := by
        unfold W64; omega
      have e4 : ((ctr + p) % W64 + 4) % W64 = (ctr + (p + 4)) % W64 := by
        unfold W64; omega
      have e5 : ((ctr + p) % W64 + 5) % W64 = (ctr + (p + 5)) % W64 := by
        unfold W64; omega
      have e6 : ((ctr + p) % W64 + 6) % W64 = (ctr + (p + 6)) % W64 := by
        unfold W64; omega
      have e7 : ((ctr + p) % W64 + 7) % W64 = (ctr + (p + 7)) % W64 := by
        unfold W64; omega
      have e8 : ((ctr + p) % W64 + 8) % W64 = (ctr + (p + 8)) % W64 := by
        unfold W64; omega
      have e9 : ((ctr + p) % W64 + 9) % W64 = (ctr + (p + 9)) % W64 := by
        unfold W64; omega
      have e10 : ((ctr + p) % W64 + 10) % W64 = (ctr + (p + 10)) % W64 := by
        unfold W64; omega
      have e11 : ((ctr + p) % W64 + 11) % W64 = (ctr + (p + 11)) % W64 := by
        unfold W64; omega
      have e12 : ((ctr + p) % W64 + 12) % W64 = (ctr + (p + 12)) % W64 := by
        unfold W64; omega
      have e13 : ((ctr + p) % W64 + 13) % W64 = (ctr + (p + 13)) % W64 := by
        unfold W64; omega
      have e14 : ((ctr + p) % W64 + 14) % W64 = (ctr + (p + 14)) % W64 := by
        unfold W64; omega
      have e15 : ((ctr + p) % W64 + 15) % W64 = (ctr + (p + 15)) % W64 := by
        unfold W64; omega
      rw [e0, e1, e2, e3, e4, e5, e6, e7, e8, e9, e10, e11, e12, e13, e14,
        e15]
      have ad1 : p + 1 + 1 = p + 2 := by omega
      have ad2 : p + 2 + 1 = p + 3 := by omega
      have ad3 : p + 3 + 1 = p + 4 := by omega
      have ad4 : p + 4 + 1 = p + 5 := by omega
      have ad5 : p + 5 + 1 = p + 6 := by omega
      have ad6 : p + 6 + 1 = p + 7 := by omega
      have ad7 : p + 7 + 1 = p + 8 := by omega
      have ad8 : p + 8 + 1 = p + 9 := by omega
      have ad9 : p + 9 + 1 = p + 10 := by omega
      have ad10 : p + 10 + 1 = p + 11 := by omega
      have ad11 : p + 11 + 1 = p + 12 := by omega
      have ad12 : p + 12 + 1 = p + 13 := by omega
      have ad13 : p + 13 + 1 = p + 14 := by omega
      have ad14 : p + 14 + 1 = p + 15 := by omega
      have ad15 : p + 15 + 1 = p + 16 := by omega
      simp [chunksRefFrom, List.append_assoc, finV16x0, finV16x1, finV16x2, finV16x3, finV16x4, finV16x5, finV16x6, finV16x7, finV16x8, finV16x9, finV16x10, finV16x11, finV16x12, finV16x13, finV16x14, finV16x15, ad1, ad2, ad3, ad4, ad5, ad6, ad7, ad8, ad9, ad10, ad11, ad12, ad13, ad14, ad15]
    · unfold hashManyLoop16
      rw [dif_neg (by omega)]
      exact hashManyLoop8_spec input key ctr flags k p

/-- `chunksRefFrom` is the concatenation of the scalar per-chunk results in
chunk order. -/
theorem chunksRefFrom_eq_range (input : BytePtr) (key : Nat → Nat)
    (ctr flags : Nat) : ∀ (k p : Nat),
    chunksRefFrom input key ctr flags p k =
      (((List.range k).map (fun i =>
        scalarChunkCV (fun o => input ((p + i) * BLAKE3_CHUNK_LEN + o)) key
          ((ctr + (p + i)) % W64) flags)).flatten) := by
  intro k
  induction k with
  | zero => intro p; rfl
  | succ k ih =>
      intro p
      show scalarChunkCV _ key _ flags ++ chunksRefFrom input key ctr flags (p + 1) k = _
      rw [ih (p + 1), List.range_succ_eq_map]
      simp only [List.map_cons, List.map_map, List.flatten_cons]
      have hmap : (List.range k).map
          ((fun i => scalarChunkCV
            (fun o => input ((p + i) * BLAKE3_CHUNK_LEN + o)) key
            ((ctr + (p + i)) % W64) flags) ∘ (· + 1)) =
          (List.range k).map (fun i => scalarChunkCV
            (fun o => input ((p + 1 + i) * BLAKE3_CHUNK_LEN + o)) key
            ((ctr + (p + 1 + i)) % W64) flags) := by
        apply List.map_congr_left
        intro i _
        have hx : p + (i + 1) = p + 1 + i := by omega
        simp only [Function.comp_apply, hx]
      rw [hmap]
      have hz : p + 0 = p := by omega
      simp only [hz]

theorem flat7_eq_spec7 (s : VState) (w : Nat → Nat) :
    flat7 s w = spec7Rounds s w := by
  simp only [flat7, spec7Rounds, flatRoundW_eq_specRoundW]

/-- `BLAKE3_Compress_XOF_SSE41` in flat form. -/
theorem compressXOF_flat (cv : Nat → Nat) (block : BytePtr)
    (blen ctr flags : Nat) :
    BLAKE3_Compress_XOF_SSE41 cv block blen ctr flags =
      flatFinalize (flat7 (initV cv blen ctr flags) (blockWords block)) ++
        xofTail (flat7 (initV cv blen ctr flags) (blockWords block)) cv := by
  rw [← compress_pre_flat]
  rfl

theorem chunksRef_zero_eq_range (input : BytePtr) (key : Nat → Nat)
    (ctr flags n : Nat) :
    chunksRefFrom input key ctr flags 0 n =
      ((List.range n).map (fun i =>
        scalarChunkCV (fun o => input (i * BLAKE3_CHUNK_LEN + o)) key
          ((ctr + i) % W64) flags)).flatten := by
  rw [chunksRefFrom_eq_range]
  apply congrArg
  apply List.map_congr_left
  intro i _
  have h0 : 0 + i = i := by omega
  rw [h0]

theorem hashManySSE41_char (input : BytePtr) (input_len : Nat)
    (key : Nat → Nat) (ctr flags : Nat) :
    BLAKE3_HashMany_SSE41 input input_len key ctr flags =
      (((List.range (input_len / BLAKE3_CHUNK_LEN)).map (fun i =>
        scalarChunkCV (fun o => input (i * BLAKE3_CHUNK_LEN + o)) key
          ((ctr + i) % W64) flags)).flatten,
        input_len / BLAKE3_CHUNK_LEN) := by
  have h := hashManyLoop4_spec input key ctr flags
    (input_len / BLAKE3_CHUNK_LEN) 0
  rw [Nat.zero_add] at h
  show hashManyLoop4 input key ctr flags (input_len / BLAKE3_CHUNK_LEN) 0 = _
  rw [h, chunksRef_zero_eq_range]

theorem hashManyAVX2_char (input : BytePtr) (input_len : Nat)
    (key : Nat → Nat) (ctr flags : Nat) :
    BLAKE3_HashMany_AVX2 input input_len key ctr flags =
      (((List.range (input_len / BLAKE3_CHUNK_LEN)).map (fun i =>
        scalarChunkCV (fun o => input (i * BLAKE3_CHUNK_LEN + o)) key
          ((ctr + i) % W64) flags)).flatten,
        input_len / BLAKE3_CHUNK_LEN) := by
  have h := hashManyLoop8_spec input key ctr flags
    (input_len / BLAKE3_CHUNK_LEN) 0
  rw [Nat.zero_add] at h
  show hashManyLoop8 input key ctr flags (input_len / BLAKE3_CHUNK_LEN) 0 = _
  rw [h, chunksRef_zero_eq_range]

theorem hashManyAVX512_char (input : BytePtr) (input_len : Nat)
    (key : Nat → Nat) (ctr flags : Nat) :
    BLAKE3_HashMany_AVX512 input input_len key ctr flags =
      (((List.range (input_len / BLAKE3_CHUNK_LEN)).map (fun i =>
        scalarChunkCV (fun o => input (i * BLAKE3_CHUNK_LEN + o)) key
          ((ctr + i) % W64) flags)).flatten,
        input_len / BLAKE3_CHUNK_LEN) := by
  have h := hashManyLoop16_spec input key ctr flags
    (input_len / BLAKE3_CHUNK_LEN) 0
  rw [Nat.zero_add] at h
  show hashManyLoop16 input key ctr flags (input_len / BLAKE3_CHUNK_LEN) 0 = _
  rw [h, chunksRef_zero_eq_range]

theorem flatChunkBlocks_congr {p q : BytePtr} {tlo thi flags : Nat}
    (h : ∀ o, o < 1024 → p o = q o) :
    ∀ (b : Nat), b ≤ 16 → ∀ (cv : List Nat),
    flatChunkBlocks p tlo thi flags b cv =
      flatChunkBlocks q tlo thi flags b cv := by
  intro b
  induction b with
  | zero => intro _ cv; rfl
  | succ b ih =>
      intro hb cv
      show flatBlockStep (flatChunkBlocks p tlo thi flags b cv) _ tlo thi _ =
        flatBlockStep (flatChunkBlocks q tlo thi flags b cv) _ tlo thi _
      rw [ih (by omega) cv]
      apply flatBlockStep_congr
      intro w hw
      simp only [blockWords, w32at, BLAKE3_BLOCK_LEN]
      rw [h (b * 64 + 4 * w) (by omega), h (b * 64 + (4 * w + 1)) (by omega),
        h (b * 64 + (4 * w + 2)) (by omega),
        h (b * 64 + (4 * w + 3)) (by omega)]

theorem scalarChunkCV_congr {p q : BytePtr} (key : Nat → Nat)
    {t flags : Nat} (h : ∀ o, o < 1024 → p o = q o) :
    scalarChunkCV p key t flags = scalarChunkCV q key t flags := by
  rw [scalarChunkCV_flat, scalarChunkCV_flat]
  exact flatChunkBlocks_congr h 16 (by omega) _

/-- C1: for every N in {4, 8, 16}, the N-way SIMD chunk engines
(`BLAKE3_Hash4_SSE41`, `BLAKE3_Hash8_AVX2`, `BLAKE3_Hash16_AVX512`) write,
for each chunk i, the same 32-byte chaining value that the scalar path
produces by running 16 successive single-block compressions over chunk i
with chaining value initialized to the key, counter `t0 + i` (64-bit), and
the per-block flags of the scalar loop. -/
theorem blake3_c1 (key : Nat → Nat) (ctr flags : Nat) :
    (∀ inputs : Fin 4 → BytePtr,
      BLAKE3_Hash4_SSE41 inputs key ctr flags =
        scalarChunkCV (inputs 0) key (ctr % W64) flags ++
        scalarChunkCV (inputs 1) key ((ctr + 1) % W64) flags ++
        scalarChunkCV (inputs 2) key ((ctr + 2) % W64) flags ++
        scalarChunkCV (inputs 3) key ((ctr + 3) % W64) flags) ∧
    (∀ inputs : Fin 8 → BytePtr,
      BLAKE3_Hash8_AVX2 inputs key ctr flags =
        scalarChunkCV (inputs 0) key (ctr % W64) flags ++
        scalarChunkCV (inputs 1) key ((ctr + 1) % W64) flags ++
        scalarChunkCV (inputs 2) key ((ctr + 2) % W64) flags ++
        scalarChunkCV (inputs 3) key ((ctr + 3) % W64) flags ++
        scalarChunkCV (inputs 4) key ((ctr + 4) % W64) flags ++
        scalarChunkCV (inputs 5) key ((ctr + 5) % W64) flags ++
        scalarChunkCV (inputs 6) key ((ctr + 6) % W64) flags ++
        scalarChunkCV (inputs 7) key ((ctr + 7) % W64) flags) ∧
    (∀ inputs : Fin 16 → BytePtr,
      BLAKE3_Hash16_AVX512 inputs key ctr flags =
        scalarChunkCV (inputs 0) key (ctr % W64) flags ++
        scalarChunkCV (inputs 1) key ((ctr + 1) % W64) flags ++
        scalarChunkCV (inputs 2) key ((ctr + 2) % W64) flags ++
        scalarChunkCV (inputs 3) key ((ctr + 3) % W64) flags ++
        scalarChunkCV (inputs 4) key ((ctr + 4) % W64) flags ++
        scalarChunkCV (inputs 5) key ((ctr + 5) % W64) flags ++
        scalarChunkCV (inputs 6) key ((ctr + 6) % W64) flags ++
        scalarChunkCV (inputs 7) key ((ctr + 7) % W64) flags ++
        scalarChunkCV (inputs 8) key ((ctr + 8) % W64) flags ++
        scalarChunkCV (inputs 9) key ((ctr + 9) % W64) flags ++
        scalarChunkCV (inputs 10) key ((ctr + 10) % W64) flags ++
        scalarChunkCV (inputs 11) key ((ctr + 11) % W64) flags ++
        scalarChunkCV (inputs 12) key ((ctr + 12) % W64) flags ++
        scalarChunkCV (inputs 13) key ((ctr + 13) % W64) flags ++
        scalarChunkCV (inputs 14) key ((ctr + 14) % W64) flags ++
        scalarChunkCV (inputs 15) key ((ctr + 15) % W64) flags) :=
  ⟨fun inputs => hash4_eq_scalar inputs key ctr flags,
   fun inputs => hash8_eq_scalar inputs key ctr flags,
   fun inputs => hash16_eq_scalar inputs key ctr flags⟩

/-- C2: the compression function initializes the 16-word state to
`h[0..8] || IV[0..4] || t_lo, t_hi, b, d` and applies exactly seven rounds,
each applying the G quarter-round (`a += b + m`, `c += d`, `d ^= a`,
`b ^= c`, rotations right by 16, 12, 8, 7) to the four columns and then the
four diagonals of the 4×4 state matrix under the fixed round-indexed
message schedule. -/
theorem blake3_c2 (cv : Nat → Nat) (block : BytePtr) (blen ctr flags : Nat) :
    flattenRows (compress_pre cv block blen ctr flags) =
      spec7Rounds (initV cv blen ctr flags) (blockWords block) := by
  rw [compress_pre_flat]
  exact flat7_eq_spec7 _ _

/-- C3: CV-mode compression returns `v[0..8] XOR v[8..16]` of the
post-round state, and XOF-mode compression returns
`(v[0..8] XOR v[8..16]) || (v[8..16] XOR h[0..8])`. -/
theorem blake3_c3 (cv : Nat → Nat) (block : BytePtr) (blen ctr flags : Nat) :
    BLAKE3_Compress_SSE41 cv block blen ctr flags =
      flatFinalize (flat7 (initV cv blen ctr flags) (blockWords block)) ∧
    BLAKE3_Compress_XOF_SSE41 cv block blen ctr flags =
      flatFinalize (flat7 (initV cv blen ctr flags) (blockWords block)) ++
        xofTail (flat7 (initV cv blen ctr flags) (blockWords block)) cv :=
  ⟨compressSSE_flat cv block blen ctr flags,
   compressXOF_flat cv block blen ctr flags⟩

/-- C4: in every N-way chunk engine, block 0 is compressed with
`flags | CHUNK_START`, block 15 with `flags | CHUNK_END`, blocks 1..14 with
the mode flags alone, the flag vector is a broadcast (identical in every
lane), and each engine's block loop feeds `chunkBlockFlags` of the block
index to the shared block compression. -/
theorem blake3_c4 (flags : Nat) :
    chunkBlockFlags flags 0 = flags ||| BLAKE3_CHUNK_START ∧
    chunkBlockFlags flags 15 = flags ||| BLAKE3_CHUNK_END ∧
    (∀ b, 1 ≤ b → b ≤ 14 → chunkBlockFlags flags b = flags) ∧
    (∀ (n : Nat) (c : Fin n) (b : Nat),
      (set1 (chunkBlockFlags flags b) : Vec n) c = chunkBlockFlags flags b) ∧
    (∀ (inputs : Fin 4 → BytePtr) (clo chi : Vec 4) (b : Nat) (h : HV 4),
      chunkBlocks4 inputs clo chi flags (b + 1) h =
        blockCompressN (chunkBlocks4 inputs clo chi flags b h)
          (transpose_msg_vecs4 inputs (b * BLAKE3_BLOCK_LEN)) clo chi
          (chunkBlockFlags flags b)) ∧
    (∀ (inputs : Fin 8 → BytePtr) (clo chi : Vec 8) (b : Nat) (h : HV 8),
      chunkBlocks8 inputs clo chi flags (b + 1) h =
        blockCompressN (chunkBlocks8 inputs clo chi flags b h)
          (transpose_msg_vecs8 inputs (b * BLAKE3_BLOCK_LEN)) clo chi
          (chunkBlockFlags flags b)) ∧
    (∀ (inputs : Fin 16 → BytePtr) (clo chi : Vec 16) (b : Nat) (h : HV 16),
      chunkBlocks16 inputs clo chi flags (b + 1) h =
        blockCompressN (chunkBlocks16 inputs clo chi flags b h)
          (transpose_msg_vecs16 inputs (b * BLAKE3_BLOCK_LEN)) clo chi
          (chunkBlockFlags flags b)) := by
  refine ⟨rfl, rfl, ?_, fun n c b => rfl, fun i cl ch b h => rfl,
    fun i cl ch b h => rfl, fun i cl ch b h => rfl⟩
  intro b h1 h14
  unfold chunkBlockFlags
  rw [if_neg (by omega), if_neg (by omega)]

theorem blake3_c4_witness : chunkBlockFlags 16 7 = 16 :=
  (blake3_c4 16).2.2.1 7 (by omega) (by omega)

/-- C5: lane i of the counter vectors of every N-way engine holds the low
and high 32 bits of the 64-bit value `t0 + i`; the two vectors are passed
unchanged to all 16 block compressions of the batch; and the scalar
per-chunk path passes the same counter to every one of its 16 block
compressions. -/
theorem blake3_c5 (ctr : Nat) :
    (∀ i : Fin 4,
      counterLowVec4 ctr i = ((ctr + i) % W64) % W32 ∧
      counterHighVec4 ctr i = (((ctr + i) % W64) >>> 32) % W32) ∧
    (∀ i : Fin 8,
      counterLowVec8 ctr i = ((ctr + i) % W64) % W32 ∧
      counterHighVec8 ctr i = (((ctr + i) % W64) >>> 32) % W32) ∧
    (∀ i : Fin 16,
      counterLowVec16 ctr i = ((ctr + i) % W64) % W32 ∧
      counterHighVec16 ctr i = (((ctr + i) % W64) >>> 32) % W32) ∧
    (∀ (inputs : Fin 4 → BytePtr) (clo chi : Vec 4) (flags b : Nat)
        (h : HV 4),
      chunkBlocks4 inputs clo chi flags (b + 1) h =
        blockCompressN (chunkBlocks4 inputs clo chi flags b h)
          (transpose_msg_vecs4 inputs (b * BLAKE3_BLOCK_LEN)) clo chi
          (chunkBlockFlags flags b)) ∧
    (∀ (inputs : Fin 8 → BytePtr) (clo chi : Vec 8) (flags b : Nat)
        (h : HV 8),
      chunkBlocks8 inputs clo chi flags (b + 1) h =
        blockCompressN (chunkBlocks8 inputs clo chi flags b h)
          (transpose_msg_vecs8 inputs (b * BLAKE3_BLOCK_LEN)) clo chi
          (chunkBlockFlags flags b)) ∧
    (∀ (inputs : Fin 16 → BytePtr) (clo chi : Vec 16) (flags b : Nat)
        (h : HV 16),
      chunkBlocks16 inputs clo chi flags (b + 1) h =
        blockCompressN (chunkBlocks16 inputs clo chi flags b h)
          (transpose_msg_vecs16 inputs (b * BLAKE3_BLOCK_LEN)) clo chi
          (chunkBlockFlags flags b)) ∧
    (∀ (chunk : BytePtr) (t flags b : Nat) (cv : List Nat),
      scalarChunkBlocks chunk t flags (b + 1) cv =
        BLAKE3_Compress_SSE41
          (listToPtr (scalarChunkBlocks chunk t flags b cv))
          (fun o => chunk (b * BLAKE3_BLOCK_LEN + o)) BLAKE3_BLOCK_LEN t
          (chunkBlockFlags flags b)) ∧
    (∀ (input : BytePtr) (key : Nat → Nat) (flags num processed : Nat),
      processed < num →
      hashManyLoop1 input key ctr flags num processed =
        (scalarChunkCV (fun o => input (processed * BLAKE3_CHUNK_LEN + o))
            key ((ctr + processed) % W64) flags ++
          (hashManyLoop1 input key ctr flags num (processed + 1)).1,
         (hashManyLoop1 input key ctr flags num (processed + 1)).2)) := by
  refine ⟨?_, ?_, ?_, fun i cl ch f b h => rfl, fun i cl ch f b h => rfl,
    fun i cl ch f b h => rfl, fun chunk t f b cv => rfl, ?_⟩
  · intro i
    fin_cases i
    · exact ⟨(mod64_mod32 ctr).symm, (shr64_mod32 ctr).symm⟩
    · exact ⟨rfl, rfl⟩
    · exact ⟨rfl, rfl⟩
    · exact ⟨rfl, rfl⟩
  · intro i
    fin_cases i
    · exact ⟨(mod64_mod32 ctr).symm, (shr64_mod32 ctr).symm⟩
    all_goals exact ⟨rfl, rfl⟩
  · intro i
    fin_cases i
    · exact ⟨(mod64_mod32 ctr).symm, (shr64_mod32 ctr).symm⟩
    all_goals exact ⟨rfl, rfl⟩
  · intro input key flags num processed hp
    conv_lhs => rw [hashManyLoop1]
    rw [dif_pos hp]

theorem blake3_c5_witness :
    hashManyLoop1 (fun _ => 0) (fun _ => 0) 0 0 1 0 =
      (scalarChunkCV (fun o => (fun _ => 0 : BytePtr)
          (0 * BLAKE3_CHUNK_LEN + o)) (fun _ => 0) ((0 + 0) % W64) 0 ++
        (hashManyLoop1 (fun _ => 0) (fun _ => 0) 0 0 1 (0 + 1)).1,
       (hashManyLoop1 (fun _ => 0) (fun _ => 0) 0 0 1 (0 + 1)).2) :=
  (blake3_c5 0).2.2.2.2.2.2.2 (fun _ => 0) (fun _ => 0) 0 1 0 (by omega)

/-- C6: each `BLAKE3_HashMany` back-end processes exactly
`input_len / 1024` chunks, returns that count, and writes, in chunk order,
the scalar per-chunk chaining value of every chunk, whichever width
handled it. -/
theorem blake3_c6 (input : BytePtr) (input_len : Nat) (key : Nat → Nat)
    (ctr flags : Nat) :
    BLAKE3_HashMany_SSE41 input input_len key ctr flags =
      (((List.range (input_len / BLAKE3_CHUNK_LEN)).map (fun i =>
        scalarChunkCV (fun o => input (i * BLAKE3_CHUNK_LEN + o)) key
          ((ctr + i) % W64) flags)).flatten,
        input_len / BLAKE3_CHUNK_LEN) ∧
    BLAKE3_HashMany_AVX2 input input_len key ctr flags =
      (((List.range (input_len / BLAKE3_CHUNK_LEN)).map (fun i =>
        scalarChunkCV (fun o => input (i * BLAKE3_CHUNK_LEN + o)) key
          ((ctr + i) % W64) flags)).flatten,
        input_len / BLAKE3_CHUNK_LEN) ∧
    BLAKE3_HashMany_AVX512 input input_len key ctr flags =
      (((List.range (input_len / BLAKE3_CHUNK_LEN)).map (fun i =>
        scalarChunkCV (fun o => input (i * BLAKE3_CHUNK_LEN + o)) key
          ((ctr + i) % W64) flags)).flatten,
        input_len / BLAKE3_CHUNK_LEN) :=
  ⟨hashManySSE41_char input input_len key ctr flags,
   hashManyAVX2_char input input_len key ctr flags,
   hashManyAVX512_char input input_len key ctr flags⟩

set_option maxRecDepth 100000 in
/-- C7: hashing the empty input in plain mode compresses exactly one block
(the all-zero 64-byte block, chaining value IV, counter 0, block length 0,
flags `CHUNK_START | CHUNK_END | ROOT`), and the little-endian
serialization of the resulting chaining value has the uppercase hex
encoding AF1349B9F5F9A1A6A0404DEA36DCC9499BCB25C9ADC112B7CC9A93CAE41F3262. -/
theorem blake3_c7 :
    shortRootDigest [] =
      BLAKE3_Compress_SSE41 BLAKE3_IV (fun _ => 0) 0 0
        (BLAKE3_CHUNK_START ||| BLAKE3_CHUNK_END ||| BLAKE3_ROOT) ∧
    hexOfBytes (wordsToBytes (shortRootDigest [])) =
      "AF1349B9F5F9A1A6A0404DEA36DCC9499BCB25C9ADC112B7CC9A93CAE41F3262" :=
  ⟨rfl, by decide⟩

/-- C8: the NEON single-block compression diverges from the SSE4.1
single-block compression, already on the zero-padded "abc" block of the
repository's own test vector: `BLAKE3_Compress_NEON` pairs the
diagonal-step message words with the wrong diagonals. -/
theorem blake3_c8_neon_divergence :
    BLAKE3_Compress_NEON BLAKE3_IV abcBlockPtr 3 0
        (BLAKE3_CHUNK_START ||| BLAKE3_CHUNK_END ||| BLAKE3_ROOT) ≠
      BLAKE3_Compress_SSE41 BLAKE3_IV abcBlockPtr 3 0
        (BLAKE3_CHUNK_START ||| BLAKE3_CHUNK_END ||| BLAKE3_ROOT) ∧
    hexOfBytes (wordsToBytes (BLAKE3_Compress_SSE41 BLAKE3_IV abcBlockPtr 3 0
        (BLAKE3_CHUNK_START ||| BLAKE3_CHUNK_END ||| BLAKE3_ROOT))) =
      "6437B3AC38465133FFB63B75273A8DB548C558465D79DB03FD359C6CD5BD9D85" ∧
    hexOfBytes (wordsToBytes (BLAKE3_Compress_NEON BLAKE3_IV abcBlockPtr 3 0
        (BLAKE3_CHUNK_START ||| BLAKE3_CHUNK_END ||| BLAKE3_ROOT))) ≠
      "6437B3AC38465133FFB63B75273A8DB548C558465D79DB03FD359C6CD5BD9D85" := by
  refine ⟨?_, ?_, ?_⟩ <;> (set_option maxRecDepth 100000 in decide)

set_option maxRecDepth 100000 in
/-- C9: hashing the 3-byte ASCII input "abc" in plain mode compresses one
block ("abc" zero-padded to 64 bytes, chaining value IV, counter 0, block
length 3, flags `CHUNK_START | CHUNK_END | ROOT`), and the little-endian
serialization of the resulting chaining value has the uppercase hex
encoding 6437B3AC38465133FFB63B75273A8DB548C558465D79DB03FD359C6CD5BD9D85. -/
theorem blake3_c9 :
    shortRootDigest [97, 98, 99] =
      BLAKE3_Compress_SSE41 BLAKE3_IV abcBlockPtr 3 0
        (BLAKE3_CHUNK_START ||| BLAKE3_CHUNK_END ||| BLAKE3_ROOT) ∧
    hexOfBytes (wordsToBytes (shortRootDigest [97, 98, 99])) =
      "6437B3AC38465133FFB63B75273A8DB548C558465D79DB03FD359C6CD5BD9D85" :=
  ⟨rfl, by decide⟩

/-- C10: two inputs that agree on their first `(len / 1024) * 1024` bytes
and have the same `len / 1024` give identical `BLAKE3_HashMany` outputs and
identical returned chunk counts in every back-end: the trailing partial
chunk has no influence. -/
theorem blake3_c10 (input1 input2 : BytePtr) (len1 len2 : Nat)
    (key : Nat → Nat) (ctr flags : Nat)
    (hlen : len1 / BLAKE3_CHUNK_LEN = len2 / BLAKE3_CHUNK_LEN)
    (hagree : ∀ i, i < (len1 / BLAKE3_CHUNK_LEN) * BLAKE3_CHUNK_LEN →
      input1 i = input2 i) :
    BLAKE3_HashMany_SSE41 input1 len1 key ctr flags =
      BLAKE3_HashMany_SSE41 input2 len2 key ctr flags ∧
    BLAKE3_HashMany_AVX2 input1 len1 key ctr flags =
      BLAKE3_HashMany_AVX2 input2 len2 key ctr flags ∧
    BLAKE3_HashMany_AVX512 input1 len1 key ctr flags =
      BLAKE3_HashMany_AVX512 input2 len2 key ctr flags := by
  have hmap : ((List.range (len1 / BLAKE3_CHUNK_LEN)).map (fun i =>
      scalarChunkCV (fun o => input1 (i * BLAKE3_CHUNK_LEN + o)) key
        ((ctr + i) % W64) flags)) =
      ((List.range (len1 / BLAKE3_CHUNK_LEN)).map (fun i =>
      scalarChunkCV (fun o => input2 (i * BLAKE3_CHUNK_LEN + o)) key
        ((ctr + i) % W64) flags)) := by
    apply List.map_congr_left
    intro i hi
    have hilt : i < len1 / BLAKE3_CHUNK_LEN := List.mem_range.mp hi
    apply scalarChunkCV_congr
    intro o ho
    apply hagree
    simp only [BLAKE3_CHUNK_LEN] at hilt ho ⊢
    omega
  refine ⟨?_, ?_, ?_⟩
  · rw [hashManySSE41_char, hashManySSE41_char, ← hlen, hmap]
  · rw [hashManyAVX2_char, hashManyAVX2_char, ← hlen, hmap]
  · rw [hashManyAVX512_char, hashManyAVX512_char, ← hlen, hmap]

theorem blake3_c10_witness :
    BLAKE3_HashMany_SSE41 (fun _ => 1) 1500 (fun _ => 0) 0 0 =
      BLAKE3_HashMany_SSE41 (fun i => if i < 1024 then 1 else 2) 1500
        (fun _ => 0) 0 0 :=
  (blake3_c10 (fun _ => 1) (fun i => if i < 1024 then 1 else 2) 1500 1500
    (fun _ => 0) 0 0 rfl
    (by
      intro i hi
      have h1024 : i < 1024 := by
        unfold BLAKE3_CHUNK_LEN at hi
        omega
      simp only [if_pos h1024])).1

end CryptoPP
